import Mathlib

/-!
Shallow embedding of the upload orchestration engine of the YuntuServer
backend (app/services/file_upload_service.py, app/services/upload_task_service.py
and the models they manipulate), together with theorems settling the claims
about its specification.

Modelling conventions:
* UUIDs are modelled as natural numbers drawn from a monotone `next_id`
  counter in the state (uuid4 uniqueness abstraction).
* `datetime.utcnow()` is modelled by a `now : Nat` clock value supplied by the
  caller (carried in `Env`).
* The SQLAlchemy session is modelled by a pair of states: `committed` (what the
  database holds) and `cur` (the session view including pending mutations).
  Attribute assignment on an ORM row mutates `cur` immediately; `commit` copies
  `cur` into `committed`.  The FastAPI dependency `get_db` commits on normal
  return and rolls back when an exception escapes, so running an operation
  yields `cur` on success and `committed` on error.
* The blob store (OSS) is an external collaborator.  Its transport is modelled
  as succeeding, with the returned values (urls, etags, upload ids, content
  hashes) supplied by pure oracle functions in `Env`; the set of stored object
  keys is tracked in the session as ghost state that is not transactional.
* Python floats (upload progress percentages, durations) are modelled as
  exact unreduced fractions `Pct` (numerator/denominator); float rounding is
  not bit-modelled and no claim depends on it.
-/

namespace Yuntu

/-- A nonnegative Python float rendered as the exact fraction num/den. -/
structure Pct where
  num : Nat
  den : Nat := 1
deriving DecidableEq, Repr

/-- The float expression (count / total) * 100 as an exact fraction. -/
def pctOf (count total : Nat) : Pct := { num := count * 100, den := total }

end Yuntu

namespace Yuntu

/-- File upload status enum (app/models/task_file.py, FileUploadStatus). -/
inductive FileUploadStatus where
  | pending
  | uploading
  | completed
  | failed
  | skipped
deriving DecidableEq, Repr

/-- Task status enum (app/models/upload_task.py, TaskStatus). -/
inductive TaskStatus where
  | pending
  | uploading
  | completed
  | failed
  | cancelled
deriving DecidableEq, Repr

/-- Upload source enum (app/models/file.py, UploadSource). -/
inductive UploadSource where
  | web
  | client
deriving DecidableEq, Repr

/-- The chunk-session JSON blob stored in TaskFile.chunk_info
(file_upload_service.init_multipart_upload).  `uploaded_chunks` is a Python
list (appended to), `chunk_etags` a Python dict from chunk index to etag. -/
structure ChunkInfo where
  upload_id : Nat
  chunk_size : Nat
  total_chunks : Nat
  uploaded_chunks : List Nat
  chunk_etags : List (Nat × String)
deriving DecidableEq, Repr

/-- TaskFile row (app/models/task_file.py). -/
structure TaskFile where
  id : Nat
  task_id : Nat
  file_id : Option Nat := none
  local_path : String
  target_folder_path : String
  file_name : String
  file_size : Nat
  md5 : Option String := none
  mime_type : Option String := none
  status : FileUploadStatus := .pending
  upload_progress : Pct := { num := 0 }
  oss_key : Option String := none
  oss_url : Option String := none
  chunk_info : Option ChunkInfo := none
  error_message : Option String := none
  retry_count : Nat := 0
  is_duplicated : Bool := false
  duplicated_from : Option Nat := none
  completed_at : Option Nat := none
deriving DecidableEq, Repr

/-- TaskFile.can_retry property (app/models/task_file.py lines 89-92):
failed and retried fewer than 3 times. -/
def TaskFile.can_retry (f : TaskFile) : Bool :=
  f.status == .failed && f.retry_count < 3

/-- TaskFile.virtual_path property (app/models/task_file.py lines 73-77). -/
def rstripSlash (s : String) : String :=
  String.mk ((s.toList.reverse.dropWhile (fun c => c == '/')).reverse)

def TaskFile.virtual_path (f : TaskFile) : String :=
  rstripSlash f.target_folder_path ++ "/" ++ f.file_name

/-- File row (app/models/file.py). -/
structure File where
  id : Nat
  name : String
  original_name : String
  size : Nat
  extension : String := ""
  mime_type : Option String := none
  oss_key : String
  oss_url : Option String := none
  md5 : String
  drive_id : Nat
  folder_id : Option Nat := none
  uploaded_by : Nat
  upload_source : UploadSource := .web
deriving DecidableEq, Repr

/-- Folder row (app/models/folder.py). -/
structure Folder where
  id : Nat
  name : String
  path : String
  level : Nat := 0
  drive_id : Nat
  parent_id : Option Nat := none
  created_by : Nat
deriving DecidableEq, Repr

/-- Drive row (app/models/drive.py), restricted to the fields the upload
services read (id, user_id, is_team_drive, name). -/
structure Drive where
  id : Nat
  user_id : Nat
  is_team_drive : Bool := false
  name : String := ""
deriving DecidableEq, Repr

/-- One declared file inside an upload manifest
(app/schemas/upload_task.py, the per-file entries of UploadManifest). -/
structure ManifestFileInfo where
  local_path : String
  target_folder_path : String
  file_name : String
  file_size : Nat
  md5 : Option String := none
  mime_type : Option String := none
deriving DecidableEq, Repr

/-- Client upload manifest (app/schemas/upload_task.py, UploadManifest),
restricted to the fields create_task reads. -/
structure UploadManifest where
  drive_id : Nat
  task_name : String
  priority : Nat := 5
  total_files : Nat
  total_size : Nat
  files : List ManifestFileInfo
deriving DecidableEq, Repr

/-- StorageManifest summary block (app/schemas/upload_task.py,
StorageManifestSummary). -/
structure StorageManifestSummary where
  total_files : Nat
  uploaded_files : Nat
  failed_files : Nat
  skipped_files : Nat
  total_size : Nat
  storage_saved : Nat
deriving DecidableEq, Repr

/-- StorageManifest per-file entry (app/schemas/upload_task.py,
StorageManifestFile). -/
structure StorageManifestFile where
  file_id : Nat
  task_file_id : Nat
  file_name : String
  local_path : String
  virtual_path : String
  folder_id : Option Nat := none
  oss_key : String
  oss_url : Option String := none
  file_size : Nat
  md5 : String
  upload_status : String
  is_duplicated : Bool
  upload_duration : Pct := { num := 0 }
deriving DecidableEq, Repr

/-- StorageManifest (app/schemas/upload_task.py, StorageManifest).  The three
`mappings` dicts are modelled as association lists with Python-dict update
semantics. -/
structure StorageManifest where
  task_id : Nat
  task_name : String
  user_id : Nat
  drive_id : Nat
  drive_name : String
  status : TaskStatus
  summary : StorageManifestSummary
  completed_at : Option Nat
  files : List StorageManifestFile
  local_to_oss : List (String × String)
  local_to_virtual : List (String × String)
  oss_to_file_id : List (String × String)
deriving DecidableEq, Repr

/-- UploadTask row (app/models/upload_task.py). -/
structure UploadTask where
  id : Nat
  user_id : Nat
  drive_id : Nat
  task_name : String
  status : TaskStatus := .pending
  priority : Nat := 5
  total_files : Nat := 0
  uploaded_files : Nat := 0
  total_size : Nat := 0
  uploaded_size : Nat := 0
  upload_manifest : Option UploadManifest := none
  storage_manifest : Option StorageManifest := none
  error_message : Option String := none
  retry_count : Nat := 0
  completed_at : Option Nat := none
deriving DecidableEq, Repr

/-- The database state: one list per table, plus the fresh-id counter that
models uuid4 generation. -/
structure St where
  drives : List Drive := []
  folders : List Folder := []
  files : List File := []
  tasks : List UploadTask := []
  task_files : List TaskFile := []
  next_id : Nat := 0
deriving DecidableEq, Repr

/-- Error values surfaced by the services.  `http` models a raised
fastapi.HTTPException, `nameError` a Python NameError (an unbound name such as
the unimported TaskStatus in file_upload_service), `noResultFound` the
sqlalchemy exception raised by scalar_one on an empty result, `integrityError`
the sqlalchemy IntegrityError a flush raises on a constraint violation
(files.oss_key is UNIQUE and files.md5 NOT NULL, app/models/file.py lines
32 and 37, enforced because main.py creates the schema from the models), and
`pendingRollback` the PendingRollbackError every later flush or commit on the
same session raises after a failed flush, until the request's rollback. -/
inductive Err where
  | http (code : Nat) (detail : String)
  | nameError (name : String)
  | noResultFound
  | integrityError (detail : String)
  | pendingRollback
deriving DecidableEq, Repr

/-- Python str(e) of an error, as interpolated into failure messages.
CPython renders a NameError for name n as: name (then n quoted) is not defined;
the quotes are omitted here.  The sqlalchemy error texts are abbreviated to
their constraint clause. -/
def errString : Err → String
  | .http _ detail => detail
  | .nameError n => "name " ++ n ++ " is not defined"
  | .noResultFound => "No row was found when one was required"
  | .integrityError detail => detail
  | .pendingRollback => "This Session's transaction has been rolled back"

/-- The session: `committed` is the database content, `cur` the session view
with pending mutations, `oss_keys` the ghost set of blob-store object keys
(blob-store effects are not transactional), `poisoned` whether a flush has
failed on this session: sqlalchemy then refuses every further flush/commit
with PendingRollbackError until a rollback, which only get_db performs. -/
structure Sess where
  committed : St
  cur : St
  oss_keys : List String
  poisoned : Bool := false
deriving DecidableEq, Repr

/-- External oracle: pure models of the blob-store gateway responses, the
content hash function and the wall clock. -/
structure Env where
  md5Of : String → String
  ossUploadUrl : String → String → String
  ossInitMultipart : String → Nat
  ossUploadPart : String → Nat → Nat → String → String
  ossCompleteMultipart : String → Nat → List (Nat × String) → String
  ossMd5 : String → String
  now : Nat

/-- The request monad: a session transformer that can fail while keeping the
session (SQLAlchemy keeps pending mutations when an exception is caught). -/
abbrev M (α : Type) := Sess → Except Err α × Sess

/-- Return. -/
def ret {α : Type} (a : α) : M α := fun σ => (.ok a, σ)

/-- Bind. -/
def bnd {α β : Type} (m : M α) (k : α → M β) : M β := fun σ =>
  match m σ with
  | (.ok a, σ2) => k a σ2
  | (.error e, σ2) => (.error e, σ2)

instance : Monad M where
  pure := ret
  bind := bnd

deriving instance DecidableEq for Except

/-- Raise an exception. -/
def thr {α : Type} (e : Err) : M α := fun σ => (.error e, σ)

/-- Python try/except: run `m`; on an exception run the handler on the session
as `m` left it. -/
def tryM {α : Type} (m : M α) (h : Err → M α) : M α := fun σ =>
  match m σ with
  | (.ok a, σ2) => (.ok a, σ2)
  | (.error e, σ2) => h e σ2

/-- Read the session view of the database. -/
def readCur : M St := fun σ => (.ok σ.cur, σ)

/-- Mutate the session view (an ORM attribute assignment or a flushed insert). -/
def modCur (g : St → St) : M Unit := fun σ => (.ok (), { σ with cur := g σ.cur })

/-- await db.commit(): persist the session view; on a session poisoned by a
failed flush, sqlalchemy raises PendingRollbackError instead. -/
def commitM : M Unit := fun σ =>
  if σ.poisoned then (.error .pendingRollback, σ)
  else (.ok (), { σ with committed := σ.cur })

/-- Draw a fresh id (uuid4 model). -/
def freshId : M Nat := fun σ =>
  (.ok σ.cur.next_id, { σ with cur := { σ.cur with next_id := σ.cur.next_id + 1 } })

/-- Record that an object key now exists in the blob store. -/
def ossAddKey (key : String) : M Unit := fun σ =>
  (.ok (), { σ with oss_keys := σ.oss_keys ++ [key] })

/-- oss_service.delete_file: remove an object key from the blob store. -/
def ossDeleteKey (key : String) : M Unit := fun σ =>
  (.ok (), { σ with oss_keys := σ.oss_keys.filter (fun k => k != key) })

/-- db.add(File(...)) + await db.flush(): the INSERT is attempted at once.
files.oss_key is UNIQUE (app/models/file.py line 32), so a row whose key is
already present in the session view makes the flush raise IntegrityError and
poisons the session; otherwise the row is inserted. -/
def flushFile (row : File) : M Unit := fun σ =>
  if σ.cur.files.any (fun f => f.oss_key == row.oss_key) then
    (.error (.integrityError "UNIQUE constraint failed: files.oss_key"),
     { σ with poisoned := true })
  else
    (.ok (), { σ with cur := { σ.cur with files := σ.cur.files ++ [row] } })

/-- A flush that fails on a constraint violation established before the row is
even assembled (files.md5 is NOT NULL, so a File built from a TaskFile whose
md5 is still None dies at flush): raise IntegrityError and poison the
session. -/
def flushFail (detail : String) : M Unit := fun σ =>
  (.error (.integrityError detail), { σ with poisoned := true })

/-- Run one service call the way a request runs it: a fresh session on the
committed state; on success the leftover view is committed (get_db commits on
return), on error the request rolls back to the last committed state. -/
def execOp {α : Type} (m : M α) (s : St) (oss : List String) :
    Except Err α × St × List String :=
  match m ⟨s, s, oss, false⟩ with
  | (.ok a, σ) => (.ok a, σ.cur, σ.oss_keys)
  | (.error e, σ) => (.error e, σ.committed, σ.oss_keys)

/-- Python dict assignment d[k] = v: replace the value if the key is present,
otherwise append the pair. -/
def dictInsert {κ ν : Type} [BEq κ] (m : List (κ × ν)) (k : κ) (v : ν) :
    List (κ × ν) :=
  if m.any (fun p => p.1 == k) then
    m.map (fun p => if p.1 == k then (k, v) else p)
  else m ++ [(k, v)]

/-- Python dict lookup d.get(k) / `k in d`. -/
def dictGet {κ ν : Type} [BEq κ] (m : List (κ × ν)) (k : κ) : Option ν :=
  (m.find? (fun p => p.1 == k)).map (fun p => p.2)

/-- select(UploadTask).where(UploadTask.id == tid) restricted to one row. -/
def findTask (s : St) (tid : Nat) : Option UploadTask :=
  s.tasks.find? (fun t => t.id == tid)

/-- get_task (upload_task_service.get_task): the task with this id owned by
this user, if any. -/
def findTaskOwned (s : St) (tid uid : Nat) : Option UploadTask :=
  s.tasks.find? (fun t => t.id == tid && t.user_id == uid)

/-- select(TaskFile).where(TaskFile.id == fid) restricted to one row. -/
def findTaskFile (s : St) (fid : Nat) : Option TaskFile :=
  s.task_files.find? (fun f => f.id == fid)

/-- The TaskFiles of one task, in table order. -/
def filesOfTask (s : St) (tid : Nat) : List TaskFile :=
  s.task_files.filter (fun f => f.task_id == tid)

/-- select(Folder).where(drive_id == d, path == p) restricted to one row. -/
def findFolder (s : St) (d : Nat) (p : String) : Option Folder :=
  s.folders.find? (fun f => f.drive_id == d && f.path == p)

/-- select(Drive).where(Drive.id == d) restricted to one row. -/
def findDrive (s : St) (d : Nat) : Option Drive :=
  s.drives.find? (fun dr => dr.id == d)

/-- Update the task row with this id in place. -/
def updTaskSt (s : St) (tid : Nat) (g : UploadTask → UploadTask) : St :=
  { s with tasks := s.tasks.map (fun t => if t.id == tid then g t else t) }

/-- Update the task-file row with this id in place. -/
def updTaskFileSt (s : St) (fid : Nat) (g : TaskFile → TaskFile) : St :=
  { s with task_files := s.task_files.map (fun f => if f.id == fid then g f else f) }

/-- Status is a success terminal state (COMPLETED or SKIPPED). -/
def isSuccessTerminal (st : FileUploadStatus) : Bool :=
  st == .completed || st == .skipped

/-- Python folder_path.strip(slash): drop leading and trailing slash
characters. -/
def stripSlash (s : String) : String :=
  String.mk (((s.toList.dropWhile (fun c => c == '/')).reverse.dropWhile
    (fun c => c == '/')).reverse)

/-- FileUploadService._get_file_extension: os.path.splitext extension,
including the dot.  Modelled as the suffix from the last dot (empty when the
name has no dot). -/
def fileExtension (filename : String) : String :=
  if filename.toList.contains '.' then
    "." ++ String.mk ((filename.toList.reverse.takeWhile (fun c => c != '.')).reverse)
  else ""

/-- CHUNK_SIZE = LARGE_FILE_THRESHOLD = 5MB (file_upload_service lines 28-29). -/
def CHUNK_SIZE : Nat := 5 * 1024 * 1024

/-- FileUploadService._generate_oss_key: a fresh object key; the date path and
uuid4 are folded into the fresh counter. -/
def generateOssKey (filename : String) : M String := do
  let n ← freshId
  let ext := fileExtension filename
  ret ("uploads/" ++ toString n ++ ext)

/-- scalar_one over select(UploadTask).where(id == tid): raises NoResultFound
when the row is absent. -/
def scalarOneTask (tid : Nat) : M UploadTask := do
  let s ← readCur
  match findTask s tid with
  | none => thr .noResultFound
  | some t => ret t

/-- upload_task_service.get_task lifted into the monad. -/
def getTaskOwned (tid uid : Nat) : M (Option UploadTask) := do
  let s ← readCur
  ret (findTaskOwned s tid uid)

/-- FileUploadService._get_task_file (lines 521-542): fetch the TaskFile and
verify the caller owns its task. -/
def getTaskFileChecked (task_file_id uid : Nat) : M TaskFile := do
  let s ← readCur
  match findTaskFile s task_file_id with
  | none => thr (.http 404 "Task file not found")
  | some tf => do
    let t? ← getTaskOwned tf.task_id uid
    match t? with
    | none => thr (.http 403 "Access denied")
    | some _ => ret tf

/-- FileUploadService._check_file_by_md5 (lines 544-549): first File row with
this md5, if any. -/
def checkFileByMd5 (m : String) : M (Option File) := do
  let s ← readCur
  ret (s.files.find? (fun f => f.md5 == m))

/-- FileUploadService._get_folder_id (lines 620-637). -/
def getFolderId (task_id : Nat) (folder_path : String) : M (Option Nat) := do
  if folder_path == "" || folder_path == "/" then
    ret none
  else do
    let task ← scalarOneTask task_id
    let s ← readCur
    ret ((findFolder s task.drive_id folder_path).map (fun f => f.id))

/-- FileUploadService._create_file_reference (lines 551-580): the File row a
dedup resolution creates, flushed at line 579.  Note the source takes the
drive from the MATCHED file (existing_file.drive_id), not from the task; and
since the row copies existing_file.oss_key — a key already present in files —
the flush always violates the files.oss_key UNIQUE constraint. -/
def createFileReference (task_file : TaskFile) (existing_file : File)
    (user_id : Nat) (md5_hash : String) : M File := do
  let folder_id ← getFolderId task_file.task_id task_file.target_folder_path
  let fid ← freshId
  let new_file : File :=
    { id := fid
      name := task_file.file_name
      original_name := task_file.file_name
      size := task_file.file_size
      extension := fileExtension task_file.file_name
      mime_type := task_file.mime_type
      oss_key := existing_file.oss_key
      oss_url := existing_file.oss_url
      md5 := md5_hash
      drive_id := existing_file.drive_id
      folder_id := folder_id
      uploaded_by := user_id
      upload_source := .client }
  flushFile new_file
  ret new_file

/-- FileUploadService._create_new_file (lines 582-618): the File row a fresh
upload creates, in the task's drive. -/
def createNewFile (task_file : TaskFile) (oss_key oss_url : String)
    (md5_hash : String) (user_id : Nat) : M File := do
  let task ← scalarOneTask task_file.task_id
  let folder_id ← getFolderId task_file.task_id task_file.target_folder_path
  let fid ← freshId
  let new_file : File :=
    { id := fid
      name := task_file.file_name
      original_name := task_file.file_name
      size := task_file.file_size
      extension := fileExtension task_file.file_name
      mime_type := task_file.mime_type
      oss_key := oss_key
      oss_url := some oss_url
      md5 := md5_hash
      drive_id := task.drive_id
      folder_id := folder_id
      uploaded_by := user_id
      upload_source := .client }
  flushFile new_file
  ret new_file

/-- FileUploadService._update_task_progress (lines 639-670): recompute
uploaded_files and uploaded_size by rescanning the task's TaskFiles; when some
file is still UPLOADING the source assigns task.status = TaskStatus.UPLOADING,
but the name TaskStatus is never imported by file_upload_service, so that
statement raises NameError before the commit is reached. -/
def updateTaskProgress (task_id : Nat) : M Unit := do
  let s ← readCur
  let files := filesOfTask s task_id
  let done := files.filter (fun f => isSuccessTerminal f.status)
  let uploaded_files := done.length
  let uploaded_size := (done.map (fun f => f.file_size)).sum
  let _ ← scalarOneTask task_id
  modCur (fun st => updTaskSt st task_id (fun t =>
    { t with uploaded_files := uploaded_files, uploaded_size := uploaded_size }))
  if files.any (fun f => f.status == .uploading) then
    thr (.nameError "TaskStatus")
  else
    commitM

/-- str.split("/") on the character list: splits at every slash, keeping
empty segments ("".split("/") is [""], as in Python). -/
def splitCharList : List Char → List (List Char)
  | [] => [[]]
  | c :: rest =>
    let r := splitCharList rest
    if c == '/' then [] :: r
    else
      match r with
      | [] => [[c]]
      | h :: t => (c :: h) :: t

/-- Python str.split("/"). -/
def splitSlash (s : String) : List String :=
  (splitCharList s.toList).map String.mk

/-- The per-segment loop of UploadTaskService._ensure_folder_exists
(lines 140-166): walk the segments, look up each prefix, create any missing
prefix with parent = the previous segment's folder and level = the segment
index.  Pure state passing; db.add + flush is an immediate insert with a fresh
id. -/
def ensureFolderLoop (drive_id user_id : Nat) :
    List String → Nat → String → Option Folder → St → Option Folder × St
  | [], _, _, parent, s => (parent, s)
  | part :: rest, i, current_path, parent, s =>
    let cp := current_path ++ "/" ++ part
    match findFolder s drive_id cp with
    | some f => ensureFolderLoop drive_id user_id rest (i + 1) cp (some f) s
    | none =>
      let f : Folder :=
        { id := s.next_id
          drive_id := drive_id
          name := part
          path := cp
          level := i
          parent_id := parent.map (fun p => p.id)
          created_by := user_id }
      let s2 := { s with folders := s.folders ++ [f], next_id := s.next_id + 1 }
      ensureFolderLoop drive_id user_id rest (i + 1) cp (some f) s2

/-- UploadTaskService._ensure_folder_exists (lines 107-168). -/
def ensureFolderExists (drive_id : Nat) (folder_path : String) (user_id : Nat)
    (s : St) : Option Folder × St :=
  if folder_path == "" || folder_path == "/" then (none, s)
  else
    match findFolder s drive_id folder_path with
    | some f => (some f, s)
    | none =>
      ensureFolderLoop drive_id user_id (splitSlash (stripSlash folder_path))
        0 "" none s

/-- The folder materializer lifted into the monad (it never throws and never
commits by itself). -/
def ensureFolderM (drive_id : Nat) (folder_path : String) (user_id : Nat) :
    M (Option Folder) := fun σ =>
  let r := ensureFolderExists drive_id folder_path user_id σ.cur
  (.ok r.1, { σ with cur := r.2 })

/-- The TaskFile bulk-creation loop of create_task (lines 82-100). -/
def createTaskFiles (drive_id task_id user_id : Nat) :
    List ManifestFileInfo → M Unit
  | [] => ret ()
  | info :: rest => do
    let _ ← ensureFolderM drive_id info.target_folder_path user_id
    let fid ← freshId
    let tf : TaskFile :=
      { id := fid
        task_id := task_id
        local_path := info.local_path
        target_folder_path := info.target_folder_path
        file_name := info.file_name
        file_size := info.file_size
        md5 := info.md5
        mime_type := info.mime_type
        status := .pending }
    modCur (fun st => { st with task_files := st.task_files ++ [tf] })
    createTaskFiles drive_id task_id user_id rest

/-- UploadTaskService.create_task (lines 31-105). -/
def createTask (manifest : UploadManifest) (user_id : Nat) : M UploadTask := do
  let s ← readCur
  match s.drives.find? (fun d =>
      d.id == manifest.drive_id && (d.user_id == user_id || d.is_team_drive)) with
  | none => thr (.http 404 "Drive not found or access denied")
  | some _ => do
    let tid ← freshId
    let task : UploadTask :=
      { id := tid
        user_id := user_id
        drive_id := manifest.drive_id
        task_name := manifest.task_name
        priority := manifest.priority
        total_files := manifest.total_files
        total_size := manifest.total_size
        upload_manifest := some manifest
        status := .pending }
    modCur (fun st => { st with tasks := st.tasks ++ [task] })
    createTaskFiles manifest.drive_id tid user_id manifest.files
    commitM
    let s2 ← readCur
    ret ((findTask s2 tid).getD task)

/-- UploadTaskService.update_task_status (lines 267-295). -/
def updateTaskStatus (now : Nat) (task_id uid : Nat) (new_status : TaskStatus) :
    M UploadTask := do
  let t? ← getTaskOwned task_id uid
  match t? with
  | none => thr (.http 404 "Task not found or access denied")
  | some _ => do
    modCur (fun st => updTaskSt st task_id (fun t =>
      if new_status == .completed then
        { t with status := new_status, completed_at := some now }
      else
        { t with status := new_status }))
    commitM
    let s ← readCur
    match findTask s task_id with
    | none => thr .noResultFound
    | some t => ret t

/-- UploadTaskService.cancel_task (lines 297-308). -/
def cancelTask (now : Nat) (task_id uid : Nat) : M UploadTask :=
  updateTaskStatus now task_id uid .cancelled

/-- Map a file status to its stored string value (FileUploadStatus inherits
str; .value as serialized into the manifest). -/
def fileStatusValue : FileUploadStatus → String
  | .pending => "pending"
  | .uploading => "uploading"
  | .completed => "completed"
  | .failed => "failed"
  | .skipped => "skipped"

/-- The per-file manifest fold of generate_storage_manifest (lines 392-419):
only TaskFiles with a truthy file_id and oss_key contribute; the three maps
get Python-dict updates in table order. -/
def manifestFold (acc :
    List StorageManifestFile × List (String × String) × List (String × String)
      × List (String × String)) (f : TaskFile) :
    List StorageManifestFile × List (String × String) × List (String × String)
      × List (String × String) :=
  match f.file_id, f.oss_key with
  | some fid, some k =>
    if k == "" then acc
    else
      let entry : StorageManifestFile :=
        { file_id := fid
          task_file_id := f.id
          file_name := f.file_name
          local_path := f.local_path
          virtual_path := f.virtual_path
          folder_id := none
          oss_key := k
          oss_url := f.oss_url
          file_size := f.file_size
          md5 := f.md5.getD ""
          upload_status := fileStatusValue f.status
          is_duplicated := f.is_duplicated
          upload_duration := { num := 0 } }
      (acc.1 ++ [entry],
       dictInsert acc.2.1 f.local_path k,
       dictInsert acc.2.2.1 f.local_path f.virtual_path,
       dictInsert acc.2.2.2 k (toString fid))
  | _, _ => acc

/-- UploadTaskService.generate_storage_manifest (lines 356-449). -/
def generateStorageManifest (task_id : Nat) : M StorageManifest := do
  let s ← readCur
  let task ← scalarOneTask task_id
  let files := filesOfTask s task_id
  match findDrive s task.drive_id with
  | none => thr .noResultFound
  | some drive => do
    let uploaded_files := (files.filter (fun f => f.status == .completed)).length
    let skipped_files := (files.filter (fun f => f.status == .skipped)).length
    let failed_files := (files.filter (fun f => f.status == .failed)).length
    let storage_saved :=
      ((files.filter (fun f => f.is_duplicated)).map (fun f => f.file_size)).sum
    let folded := files.foldl manifestFold ([], [], [], [])
    ret
      { task_id := task.id
        task_name := task.task_name
        user_id := task.user_id
        drive_id := task.drive_id
        drive_name := drive.name
        status := task.status
        summary :=
          { total_files := task.total_files
            uploaded_files := uploaded_files
            failed_files := failed_files
            skipped_files := skipped_files
            total_size := task.total_size
            storage_saved := storage_saved }
        completed_at := task.completed_at
        files := folded.1
        local_to_oss := folded.2.1
        local_to_virtual := folded.2.2.1
        oss_to_file_id := folded.2.2.2 }

/-- UploadTaskService.check_and_complete_task (lines 310-354): when ALL
TaskFiles of the task are success terminal (vacuously true for an empty list)
and the task is not already COMPLETED, generate and persist the storage
manifest, set status COMPLETED and stamp completed_at. -/
def checkAndCompleteTask (now : Nat) (task_id : Nat) : M (Option UploadTask) := do
  let s ← readCur
  match findTask s task_id with
  | none => ret none
  | some task => do
    let files := filesOfTask s task_id
    let all_completed := files.all (fun f => isSuccessTerminal f.status)
    let _ ← (if all_completed && task.status != .completed then do
        let manifest ← generateStorageManifest task_id
        modCur (fun st => updTaskSt st task_id (fun t =>
          { t with status := .completed, storage_manifest := some manifest,
                   completed_at := some now }))
        commitM
      else ret ())
    if all_completed then do
      let s2 ← readCur
      ret (findTask s2 task_id)
    else
      ret none

/-- UploadTaskService.mark_file_completed (lines 451-572): the completion
notification endpoint.  It sets the TaskFile COMPLETED, creates a File row in
the task's drive, then INCREMENTS task.uploaded_files and task.uploaded_size
(it does not rescan), bumps a PENDING task to UPLOADING, commits and runs
check_and_complete_task.  The `if md5` / `if file_size` guards follow Python
truthiness (None, the empty string and 0 are falsy).  The File insert is
flushed at line 553, BEFORE the increments: a repeated notification reusing
an oss_key already in files dies there on the UNIQUE constraint, and a
TaskFile whose md5 is still None dies on the files.md5 NOT NULL
constraint. -/
def markFileCompleted (now : Nat) (task_id file_id uid : Nat)
    (oss_key oss_url : String) (md5 : Option String) (file_size : Option Nat) :
    M TaskFile := do
  let t? ← getTaskOwned task_id uid
  match t? with
  | none => thr (.http 404 "Task not found or access denied")
  | some task => do
    let s ← readCur
    match s.task_files.find? (fun f => f.id == file_id && f.task_id == task_id) with
    | none => thr (.http 404 "Task file not found")
    | some tf0 => do
      modCur (fun st => updTaskFileSt st file_id (fun f =>
        { f with status := .completed, oss_key := some oss_key,
                 oss_url := some oss_url, upload_progress := { num := 100 },
                 completed_at := some now }))
      let _ ← (match md5 with
        | some m =>
          if m != "" then
            modCur (fun st => updTaskFileSt st file_id (fun f => { f with md5 := some m }))
          else ret ()
        | none => ret ())
      let _ ← (match file_size with
        | some n =>
          if n != 0 then
            modCur (fun st => updTaskFileSt st file_id (fun f => { f with file_size := n }))
          else ret ()
        | none => ret ())
      let s2 ← readCur
      let folder_id : Option Nat :=
        if tf0.target_folder_path != "" && tf0.target_folder_path != "/" then
          (findFolder s2 task.drive_id tf0.target_folder_path).map (fun f => f.id)
        else none
      let s3 ← readCur
      let tfNow := (findTaskFile s3 file_id).getD tf0
      let fid ← freshId
      let file_record : File :=
        { id := fid
          drive_id := task.drive_id
          folder_id := folder_id
          name := tfNow.file_name
          original_name := tfNow.file_name
          extension := fileExtension tfNow.file_name
          oss_key := oss_key
          oss_url := some oss_url
          size := tfNow.file_size
          md5 := tfNow.md5.getD ""
          mime_type := tfNow.mime_type
          uploaded_by := uid
          upload_source := .client }
      let _ ← (match tfNow.md5 with
        | none => flushFail "NOT NULL constraint failed: files.md5"
        | some _ => flushFile file_record)
      modCur (fun st => updTaskFileSt st file_id (fun f => { f with file_id := some fid }))
      modCur (fun st => updTaskSt st task_id (fun t =>
        { t with uploaded_files := t.uploaded_files + 1,
                 uploaded_size := t.uploaded_size + tfNow.file_size }))
      modCur (fun st => updTaskSt st task_id (fun t =>
        if t.status == .pending then { t with status := .uploading } else t))
      commitM
      let _ ← checkAndCompleteTask now task_id
      let s4 ← readCur
      ret ((findTaskFile s4 file_id).getD tf0)

/-- FileCheckItem (app/schemas/file_upload.py lines 11-16). -/
structure FileCheckItem where
  task_file_id : Nat
  md5 : String
  file_size : Nat
deriving DecidableEq, Repr

/-- ExistingFileInfo (app/schemas/file_upload.py lines 25-33); oss_url is kept
optional because the matched File row's url column is nullable. -/
structure ExistingFileInfo where
  task_file_id : Nat
  md5 : String
  existing_file_id : Nat
  oss_key : String
  oss_url : Option String
  file_size : Nat
deriving DecidableEq, Repr

/-- The dict returned by check_files_exist. -/
structure CheckResult where
  existing_files : List ExistingFileInfo
  new_files_count : Int
  storage_saved : Nat
deriving DecidableEq, Repr

/-- The body of the check_files_exist loop (lines 82-130) for one check item:
on a hash hit, mark the TaskFile SKIPPED with the duplicate flags, copy the
matched object key/url, create a new File row in the TASK's drive (flushed at
line 114; it copies the matched row's oss_key, so the flush always violates
the files.oss_key UNIQUE constraint), and report the saved size. -/
def processCheckItem (task : UploadTask) (user_id : Nat)
    (md5_to_file : List (String × File)) (item : FileCheckItem) :
    M (Option ExistingFileInfo) := do
  match dictGet md5_to_file item.md5 with
  | none => ret none
  | some existing_file => do
    let s ← readCur
    match findTaskFile s item.task_file_id with
    | none => ret none
    | some tf => do
      modCur (fun st => updTaskFileSt st tf.id (fun f =>
        { f with status := .skipped, is_duplicated := true,
                 duplicated_from := some existing_file.id,
                 oss_key := some existing_file.oss_key,
                 oss_url := existing_file.oss_url }))
      let fid ← freshId
      let new_file : File :=
        { id := fid
          name := tf.file_name
          original_name := tf.file_name
          size := tf.file_size
          extension := fileExtension tf.file_name
          mime_type := tf.mime_type
          oss_key := existing_file.oss_key
          oss_url := existing_file.oss_url
          md5 := item.md5
          drive_id := task.drive_id
          uploaded_by := user_id
          upload_source := .client }
      flushFile new_file
      modCur (fun st => updTaskFileSt st tf.id (fun f =>
        { f with file_id := some fid, upload_progress := { num := 100 } }))
      ret (some
        { task_file_id := item.task_file_id
          md5 := item.md5
          existing_file_id := existing_file.id
          oss_key := existing_file.oss_key
          oss_url := existing_file.oss_url
          file_size := item.file_size })

/-- The check_files_exist loop over all items, accumulating the info list and
storage_saved in order. -/
def processCheckItems (task : UploadTask) (user_id : Nat)
    (md5_to_file : List (String × File)) :
    List FileCheckItem → M (List ExistingFileInfo × Nat)
  | [] => ret ([], 0)
  | item :: rest => do
    let hd ← processCheckItem task user_id md5_to_file item
    let tl ← processCheckItems task user_id md5_to_file rest
    match hd with
    | none => ret tl
    | some info => ret (info :: tl.1, info.file_size + tl.2)

/-- FileUploadService.check_files_exist (lines 36-141): the batch dedup
pre-check. -/
def checkFilesExist (task_id : Nat) (files : List FileCheckItem) (user_id : Nat) :
    M CheckResult := do
  let t? ← getTaskOwned task_id user_id
  match t? with
  | none => thr (.http 404 "Task not found or access denied")
  | some task => do
    let md5_list := (files.filter (fun f => f.md5 != "")).map (fun f => f.md5)
    if md5_list.isEmpty then
      ret { existing_files := [], new_files_count := files.length, storage_saved := 0 }
    else do
      let s ← readCur
      let existing_files_db := s.files.filter (fun f => md5_list.contains f.md5)
      let md5_to_file := existing_files_db.foldl (fun m f => dictInsert m f.md5 f) []
      let r ← processCheckItems task user_id md5_to_file files
      commitM
      updateTaskProgress task_id
      ret { existing_files := r.1
            new_files_count := (files.length : Int) - r.1.length
            storage_saved := r.2 }

/-- The dict returned by upload_file and complete_multipart_upload. -/
structure UploadResult where
  task_file_id : Nat
  file_id : Nat
  oss_key : Option String
  oss_url : Option String
  file_size : Nat
  md5 : String
  is_duplicated : Bool
  upload_duration : Pct := { num := 0 }
deriving DecidableEq, Repr

/-- FileUploadService.upload_file (lines 143-248): the single-shot path.  The
wall-clock upload_duration is modelled as 0. -/
def uploadFile (env : Env) (task_file_id : Nat) (content : String)
    (user_id : Nat) : M UploadResult := do
  let tf ← getTaskFileChecked task_file_id user_id
  modCur (fun st => updTaskFileSt st task_file_id (fun f => { f with status := .uploading }))
  commitM
  tryM
    (do
      let md5_hash := env.md5Of content
      let existing? ← checkFileByMd5 md5_hash
      let new_file ←
        match existing? with
        | some existing_file => do
          let new_file ← createFileReference tf existing_file user_id md5_hash
          modCur (fun st => updTaskFileSt st task_file_id (fun f =>
            { f with status := .completed, is_duplicated := true,
                     duplicated_from := some existing_file.id,
                     file_id := some new_file.id,
                     oss_key := some existing_file.oss_key,
                     oss_url := existing_file.oss_url,
                     md5 := some md5_hash, upload_progress := { num := 100 } }))
          ret new_file
        | none => do
          let oss_key ← generateOssKey tf.file_name
          let oss_url := env.ossUploadUrl oss_key content
          ossAddKey oss_key
          let new_file ← createNewFile tf oss_key oss_url md5_hash user_id
          modCur (fun st => updTaskFileSt st task_file_id (fun f =>
            { f with status := .completed, file_id := some new_file.id,
                     oss_key := some oss_key, oss_url := some oss_url,
                     md5 := some md5_hash, upload_progress := { num := 100 } }))
          ret new_file
      commitM
      updateTaskProgress tf.task_id
      let _ ← checkAndCompleteTask env.now tf.task_id
      let s ← readCur
      let tfNow := (findTaskFile s task_file_id).getD tf
      ret { task_file_id := task_file_id
            file_id := new_file.id
            oss_key := tfNow.oss_key
            oss_url := tfNow.oss_url
            file_size := tfNow.file_size
            md5 := md5_hash
            is_duplicated := tfNow.is_duplicated })
    (fun e => do
      modCur (fun st => updTaskFileSt st task_file_id (fun f =>
        { f with status := .failed, error_message := some (errString e),
                 retry_count := f.retry_count + 1 }))
      commitM
      let msg := errString e
      thr (.http 500 ("File upload failed: " ++ msg)))

/-- MultipartInitRequest (app/schemas/file_upload.py lines 61-67). -/
structure MultipartInitRequest where
  task_file_id : Nat
  file_size : Nat
  file_name : String
  mime_type : Option String := none
deriving DecidableEq, Repr

/-- The dict returned by init_multipart_upload. -/
structure InitResult where
  task_file_id : Nat
  upload_id : Nat
  chunk_size : Nat
  total_chunks : Nat
deriving DecidableEq, Repr

/-- FileUploadService.init_multipart_upload (lines 250-294). -/
def initMultipartUpload (env : Env) (req : MultipartInitRequest) (user_id : Nat) :
    M InitResult := do
  let _ ← getTaskFileChecked req.task_file_id user_id
  let oss_key ← generateOssKey req.file_name
  let upload_id := env.ossInitMultipart oss_key
  let total_chunks := (req.file_size + CHUNK_SIZE - 1) / CHUNK_SIZE
  modCur (fun st => updTaskFileSt st req.task_file_id (fun f =>
    { f with status := .uploading, oss_key := some oss_key,
             chunk_info := some
               { upload_id := upload_id
                 chunk_size := CHUNK_SIZE
                 total_chunks := total_chunks
                 uploaded_chunks := []
                 chunk_etags := [] } }))
  commitM
  ret { task_file_id := req.task_file_id, upload_id := upload_id,
        chunk_size := CHUNK_SIZE, total_chunks := total_chunks }

/-- The dict returned by upload_chunk. -/
structure ChunkResult where
  chunk_index : Nat
  chunk_etag : String
  uploaded_chunks : Nat
  total_chunks : Nat
  progress_percentage : Pct
deriving DecidableEq, Repr

/-- FileUploadService.upload_chunk (lines 296-351).  The source APPENDS the
chunk index to chunk_info uploaded_chunks unconditionally and replaces the
entry for that index in the chunk_etags dict; the reported uploaded_chunks
count is the length of the appended list. -/
def uploadChunk (env : Env) (task_file_id chunk_index : Nat)
    (chunk_data : String) (user_id : Nat) : M ChunkResult := do
  let tf ← getTaskFileChecked task_file_id user_id
  match tf.chunk_info with
  | none => thr (.http 400 "Multipart upload not initialized")
  | some chunk_info => do
    let oss_key := tf.oss_key.getD ""
    let etag := env.ossUploadPart oss_key chunk_info.upload_id chunk_index chunk_data
    let ci2 : ChunkInfo :=
      { chunk_info with
        uploaded_chunks := chunk_info.uploaded_chunks ++ [chunk_index]
        chunk_etags := dictInsert chunk_info.chunk_etags chunk_index etag }
    let uploaded_count := ci2.uploaded_chunks.length
    let total_chunks := ci2.total_chunks
    let progress : Pct := pctOf uploaded_count total_chunks
    modCur (fun st => updTaskFileSt st task_file_id (fun f =>
      { f with chunk_info := some ci2, upload_progress := progress }))
    commitM
    ret { chunk_index := chunk_index, chunk_etag := etag,
          uploaded_chunks := uploaded_count, total_chunks := total_chunks,
          progress_percentage := progress }

/-- FileUploadService.complete_multipart_upload (lines 353-459). -/
def completeMultipartUpload (env : Env) (task_file_id : Nat)
    (chunk_etags : List (Nat × String)) (user_id : Nat) : M UploadResult := do
  let tf ← getTaskFileChecked task_file_id user_id
  match tf.chunk_info with
  | none => thr (.http 400 "Multipart upload not initialized")
  | some chunk_info => do
    let oss_key := tf.oss_key.getD ""
    tryM
      (do
        let oss_url := env.ossCompleteMultipart oss_key chunk_info.upload_id chunk_etags
        ossAddKey oss_key
        let md5_hash := env.ossMd5 oss_key
        let existing? ← checkFileByMd5 md5_hash
        let new_file ←
          match existing? with
          | some existing_file => do
            ossDeleteKey oss_key
            let new_file ← createFileReference tf existing_file user_id md5_hash
            modCur (fun st => updTaskFileSt st task_file_id (fun f =>
              { f with is_duplicated := true,
                       duplicated_from := some existing_file.id,
                       oss_key := some existing_file.oss_key,
                       oss_url := existing_file.oss_url }))
            ret new_file
          | none => createNewFile tf oss_key oss_url md5_hash user_id
        modCur (fun st => updTaskFileSt st task_file_id (fun f =>
          { f with status := .completed, file_id := some new_file.id,
                   md5 := some md5_hash, upload_progress := { num := 100 },
                   chunk_info := none }))
        commitM
        updateTaskProgress tf.task_id
        let _ ← checkAndCompleteTask env.now tf.task_id
        let s ← readCur
        let tfNow := (findTaskFile s task_file_id).getD tf
        ret { task_file_id := task_file_id
              file_id := new_file.id
              oss_key := tfNow.oss_key
              oss_url := tfNow.oss_url
              file_size := tfNow.file_size
              md5 := md5_hash
              is_duplicated := tfNow.is_duplicated })
      (fun e => do
        modCur (fun st => updTaskFileSt st task_file_id (fun f =>
          { f with status := .failed, error_message := some (errString e),
                   retry_count := f.retry_count + 1 }))
        commitM
        let msg := errString e
        thr (.http 500 ("Multipart upload failed: " ++ msg)))

/-- FileUploadService.abort_multipart_upload (lines 461-484): when the
TaskFile has no chunk session this is a silent no-op; otherwise the blob-store
session is aborted, the file is marked FAILED with the given reason (default
reason when none is given) and the chunk bookkeeping is cleared.  retry_count
is not touched. -/
def abortMultipartUpload (task_file_id user_id : Nat) (reason : Option String) :
    M Unit := do
  let tf ← getTaskFileChecked task_file_id user_id
  match tf.chunk_info with
  | none => ret ()
  | some _ => do
    modCur (fun st => updTaskFileSt st task_file_id (fun f =>
      { f with status := .failed,
               error_message := some (reason.getD "Upload aborted by user"),
               chunk_info := none }))
    commitM

/-- The dict returned by retry_file. -/
structure RetryResult where
  task_file_id : Nat
  status : String
  retry_count : Nat
  message : String
deriving DecidableEq, Repr

/-- FileUploadService.retry_file (lines 486-517): reject unless can_retry
(FAILED and retry_count below 3); otherwise reset status to PENDING, clear the
error message and progress, and leave retry_count unchanged. -/
def retryFile (task_file_id user_id : Nat) : M RetryResult := do
  let tf ← getTaskFileChecked task_file_id user_id
  if tf.can_retry then do
    modCur (fun st => updTaskFileSt st task_file_id (fun f =>
      { f with status := .pending, error_message := none, upload_progress := { num := 0 } }))
    commitM
    let s ← readCur
    let tfNow := (findTaskFile s task_file_id).getD tf
    ret { task_file_id := task_file_id
          status := fileStatusValue tfNow.status
          retry_count := tfNow.retry_count
          message := "File reset to pending, ready for retry" }
  else
    thr (.http 400 "File cannot be retried (max retries reached or not failed)")

/-- The API-level operations of the upload engine, as events acting on the
committed database state.  Task deletion is out of scope (no claim involves
it); update_task_status is only reachable through cancel_task in the service
layer, which is the cancelTaskEv event.  The two internal aggregation steps
are included as events of their own so that claims quantifying over
"progress recomputation" can mention them directly. -/
inductive Event where
  | createTaskEv (manifest : UploadManifest) (user_id : Nat)
  | checkFilesExistEv (task_id : Nat) (files : List FileCheckItem) (user_id : Nat)
  | uploadFileEv (task_file_id : Nat) (content : String) (user_id : Nat)
  | initMultipartEv (req : MultipartInitRequest) (user_id : Nat)
  | uploadChunkEv (task_file_id chunk_index : Nat) (chunk_data : String) (user_id : Nat)
  | completeMultipartEv (task_file_id : Nat) (chunk_etags : List (Nat × String)) (user_id : Nat)
  | abortMultipartEv (task_file_id user_id : Nat) (reason : Option String)
  | retryFileEv (task_file_id user_id : Nat)
  | markFileCompletedEv (task_id file_id user_id : Nat) (oss_key oss_url : String)
      (md5 : Option String) (file_size : Option Nat)
  | cancelTaskEv (task_id user_id : Nat)
  | checkAndCompleteEv (task_id : Nat)
  | updateTaskProgressEv (task_id : Nat)

/-- Run one event as a request against the committed state, returning the new
committed state and blob-store key set. -/
def runEvent (env : Env) (e : Event) (s : St) (oss : List String) :
    St × List String :=
  match e with
  | .createTaskEv m u => (execOp (createTask m u) s oss).2
  | .checkFilesExistEv tid fs u => (execOp (checkFilesExist tid fs u) s oss).2
  | .uploadFileEv fid c u => (execOp (uploadFile env fid c u) s oss).2
  | .initMultipartEv req u => (execOp (initMultipartUpload env req u) s oss).2
  | .uploadChunkEv fid i d u => (execOp (uploadChunk env fid i d u) s oss).2
  | .completeMultipartEv fid et u => (execOp (completeMultipartUpload env fid et u) s oss).2
  | .abortMultipartEv fid u r => (execOp (abortMultipartUpload fid u r) s oss).2
  | .retryFileEv fid u => (execOp (retryFile fid u) s oss).2
  | .markFileCompletedEv tid fid u k url m n =>
      (execOp (markFileCompleted env.now tid fid u k url m n) s oss).2
  | .cancelTaskEv tid u => (execOp (cancelTask env.now tid u) s oss).2
  | .checkAndCompleteEv tid => (execOp (checkAndCompleteTask env.now tid) s oss).2
  | .updateTaskProgressEv tid => (execOp (updateTaskProgress tid) s oss).2

/-- Run a list of events in order. -/
def runEvents (env : Env) (es : List Event) (p : St × List String) :
    St × List String :=
  es.foldl (fun q e => runEvent env e q.1 q.2) p

/-- A fixed oracle used by the concrete scenarios: etags are derived from the
chunk index, every content hashes to the string h. -/
def envA : Env :=
  { md5Of := fun _ => "h"
    ossUploadUrl := fun _ _ => "u"
    ossInitMultipart := fun _ => 7
    ossUploadPart := fun _ _ i _ => "etag" ++ toString i
    ossCompleteMultipart := fun _ _ _ => "url"
    ossMd5 := fun _ => "h"
    now := 1000 }

end Yuntu


namespace Yuntu

/-- Rollup consistency from the claim: every task's uploaded_files equals the
number of its TaskFiles in a success terminal state and uploaded_size the sum
of their sizes. -/
def rollupConsistent (s : St) : Bool :=
  s.tasks.all (fun t =>
    t.uploaded_files ==
      ((filesOfTask s t.id).filter (fun f => isSuccessTerminal f.status)).length &&
    t.uploaded_size ==
      (((filesOfTask s t.id).filter (fun f => isSuccessTerminal f.status)).map
        (fun f => f.file_size)).sum)

/-- A drive owned by user 10 and nothing else; ids start at 100. -/
def stMark : St := { drives := [{ id := 1, user_id := 10 }], next_id := 100 }

/-- A one-file manifest targeting drive 1. -/
def markManifest : UploadManifest :=
  { drive_id := 1, task_name := "t", total_files := 1, total_size := 50,
    files := [{ local_path := "loc/a.txt", target_folder_path := "/",
                file_name := "a.txt", file_size := 50, md5 := some "h1" }] }

/-- Create the task (id 100, file id 101) and deliver the first completion
notification (object key k). -/
def markTrace1 : St × List String :=
  runEvents envA
    [ .createTaskEv markManifest 10
    , .markFileCompletedEv 100 101 10 "k" "u" (some "h1") (some 50) ]
    (stMark, [])

/-- Replay the completion notification for the same file with a FRESH object
key k2 (the key a client re-upload of the same file produces): the File
insert passes the UNIQUE constraint, so the increments run again. -/
def markTrace : St × List String :=
  runEvents envA
    [ .markFileCompletedEv 100 101 10 "k2" "u" (some "h1") (some 50) ]
    markTrace1


/-- The pre-existing File row in drive 1 with content hash h. -/
def fileOrigT : File :=
  { id := 50, name := "orig.bin", original_name := "orig.bin", size := 40,
    oss_key := "k0", oss_url := some "u0", md5 := "h", drive_id := 1,
    uploaded_by := 10 }

/-- The task targeting drive 2. -/
def taskDedupT : UploadTask :=
  { id := 60, user_id := 10, drive_id := 2, task_name := "t",
    total_files := 1, total_size := 40 }

/-- The pending TaskFile of the drive-2 task. -/
def tfDedupT : TaskFile :=
  { id := 61, task_id := 60, local_path := "p", target_folder_path := "/",
    file_name := "b.bin", file_size := 40 }

/-- Two drives of user 10; drive 1 already holds a File with hash h; a task
targeting drive 2 with one pending TaskFile. -/
def stDedup : St :=
  { drives := [{ id := 1, user_id := 10 }, { id := 2, user_id := 10 }]
    files := [fileOrigT]
    tasks := [taskDedupT]
    task_files := [tfDedupT]
    next_id := 100 }


/-- A drive owned by user 10 with no tasks yet. -/
def stZero : St := { drives := [{ id := 1, user_id := 10 }], next_id := 100 }

/-- An upload manifest declaring no files. -/
def zeroManifest : UploadManifest :=
  { drive_id := 1, task_name := "empty", total_files := 0, total_size := 0, files := [] }

/-- The zero-file task (id 100) in PENDING, as create_task leaves it. -/
def zeroTrace : St × List String :=
  runEvents envA [ .createTaskEv zeroManifest 10 ] (stZero, [])


/-- The COMPLETED one-file task row. -/
def taskDoneT : UploadTask :=
  { id := 2, user_id := 10, drive_id := 1, task_name := "t",
    status := .completed, total_files := 1, uploaded_files := 1,
    total_size := 5, uploaded_size := 5, completed_at := some 7 }

/-- A COMPLETED one-file task owned by user 10. -/
def stDone : St :=
  { drives := [{ id := 1, user_id := 10 }]
    tasks := [taskDoneT]
    task_files := [{ id := 3, task_id := 2, local_path := "p", target_folder_path := "/",
                     file_name := "a", file_size := 5, status := .completed }]
    next_id := 100 }


/-- A one-file task whose TaskFile is FAILED with retry_count 1 (the state
after the first failure of scenario C). -/
def taskFailedT : UploadTask :=
  { id := 2, user_id := 10, drive_id := 1, task_name := "t", total_files := 1,
    total_size := 5 }

/-- The FAILED task file: one recorded failure, partial progress, an error
message. -/
def tfFailedT : TaskFile :=
  { id := 3, task_id := 2, local_path := "p", target_folder_path := "/", file_name := "a",
    file_size := 5, status := .failed, error_message := some "boom", retry_count := 1,
    upload_progress := { num := 37 } }

/-- The failed-file scenario state. -/
def stFailed : St :=
  { drives := [{ id := 1, user_id := 10 }], tasks := [taskFailedT],
    task_files := [tfFailedT], next_id := 100 }

/-- The zero-file task row as create_task persists it (id 100). -/
def taskZeroT : UploadTask :=
  { id := 100, user_id := 10, drive_id := 1, task_name := "empty", priority := 5,
    total_files := 0, total_size := 0, upload_manifest := some zeroManifest }

/-- A TaskFile of the two-file task that is mid-transfer (status UPLOADING). -/
def tfUploadingT : TaskFile :=
  { id := 3, task_id := 2, local_path := "pa", target_folder_path := "/",
    file_name := "a.bin", file_size := 10, status := .uploading }

/-- A two-file task state: file 3 is UPLOADING; file 4 (arbitrary status and
retry count) is about to be uploaded single-shot; the dedup index is empty. -/
def stNameErr (r : Nat) (stB : FileUploadStatus) : St :=
  { drives := [{ id := 1, user_id := 10 }]
    tasks := [{ id := 2, user_id := 10, drive_id := 1, task_name := "t",
                total_files := 2, total_size := 20 }]
    task_files := [ tfUploadingT,
      { id := 4, task_id := 2, local_path := "pb", target_folder_path := "/",
        file_name := "b.bin", file_size := 10, status := stB, retry_count := r } ]
    next_id := 100 }

/-- A task status that is COMPLETED or CANCELLED: the set of statuses
reachable from COMPLETED under the file-level events, used to prove
completion monotonicity. -/
def ccStatus (st : TaskStatus) : Prop := st = .completed ∨ st = .cancelled

/-- State evolution preserves tasks that have reached a COMPLETED or
CANCELLED status: such a task is still present and still in that set. -/
def TMono (s1 s2 : St) : Prop :=
  ∀ tid t1, findTask s1 tid = some t1 → ccStatus t1.status →
    ∃ t2, findTask s2 tid = some t2 ∧ ccStatus t2.status

/-- Session-level monotonicity: the session view evolves monotonically and
the committed state is either unchanged or a monotone successor of the
initial view. -/
def SP (σ σ2 : Sess) : Prop :=
  TMono σ.cur σ2.cur ∧ (TMono σ.cur σ2.committed ∨ σ2.committed = σ.committed)

/-- A computation all of whose runs are session-monotone. -/
def MonoM {α : Type} (m : M α) : Prop := ∀ σ, SP σ (m σ).2

/-- Per-drive path uniqueness of the Folder table: no two Folder rows of one
drive share a path. -/
def folderUnique (s : St) : Prop :=
  s.folders.Pairwise (fun a b => a.drive_id = b.drive_id → a.path ≠ b.path)

/-- The successive current_path values of the materializer loop: the prefix
paths it looks up and, when missing, creates. -/
def chainPrefixes (cp : String) : List String → List String
  | [] => []
  | part :: rest => (cp ++ "/" ++ part) :: chainPrefixes (cp ++ "/" ++ part) rest

/-- The final current_path of the materializer loop (the deepest prefix). -/
def chainPath (cp : String) (parts : List String) : String :=
  parts.foldl (fun acc part => acc ++ "/" ++ part) cp

-- DEFS-END-MARKER
end Yuntu

namespace Yuntu

/-- Monad-class bind on M is the explicit bnd. -/
theorem bind_eq_bnd {α β : Type} (m : M α) (k : α → M β) : m >>= k = bnd m k := rfl

/-- Monad-class pure on M is the explicit ret. -/
theorem pure_eq_ret {α : Type} (a : α) : (pure a : M α) = ret a := rfl

theorem ret_apply {α : Type} (a : α) (σ : Sess) : ret a σ = (.ok a, σ) := rfl

theorem thr_apply {α : Type} (e : Err) (σ : Sess) : (thr e : M α) σ = (.error e, σ) := rfl

theorem bnd_apply {α β : Type} (m : M α) (k : α → M β) (σ : Sess) :
    bnd m k σ = match m σ with
      | (.ok a, σ2) => k a σ2
      | (.error e, σ2) => (.error e, σ2) := rfl

theorem tryM_apply {α : Type} (m : M α) (h : Err → M α) (σ : Sess) :
    tryM m h σ = match m σ with
      | (.ok a, σ2) => (.ok a, σ2)
      | (.error e, σ2) => h e σ2 := rfl

theorem readCur_apply (σ : Sess) : readCur σ = (.ok σ.cur, σ) := rfl

theorem modCur_apply (g : St → St) (σ : Sess) :
    modCur g σ = (.ok (), { σ with cur := g σ.cur }) := rfl

theorem commitM_apply (σ : Sess) (h : σ.poisoned = false) :
    commitM σ = (.ok (), { σ with committed := σ.cur }) := by
  unfold commitM
  rw [h]
  rfl

theorem commitM_apply_poisoned (σ : Sess) (h : σ.poisoned = true) :
    commitM σ = (.error .pendingRollback, σ) := by
  unfold commitM
  rw [h]
  rfl

theorem flushFail_apply (d : String) (σ : Sess) :
    flushFail d σ = (.error (.integrityError d), { σ with poisoned := true }) := rfl

theorem flushFile_apply (row : File) (σ : Sess) :
    flushFile row σ =
      if σ.cur.files.any (fun f => f.oss_key == row.oss_key) then
        (.error (.integrityError "UNIQUE constraint failed: files.oss_key"),
         { σ with poisoned := true })
      else
        (.ok (), { σ with cur := { σ.cur with files := σ.cur.files ++ [row] } }) := rfl

theorem flushFile_apply_fresh (row : File) (σ : Sess)
    (h : σ.cur.files.any (fun f => f.oss_key == row.oss_key) = false) :
    flushFile row σ =
      (.ok (), { σ with cur := { σ.cur with files := σ.cur.files ++ [row] } }) := by
  unfold flushFile
  rw [h]
  rfl

theorem flushFile_apply_dup (row : File) (σ : Sess)
    (h : σ.cur.files.any (fun f => f.oss_key == row.oss_key) = true) :
    flushFile row σ =
      (.error (.integrityError "UNIQUE constraint failed: files.oss_key"),
       { σ with poisoned := true }) := by
  unfold flushFile
  rw [h]
  rfl

theorem freshId_apply (σ : Sess) :
    freshId σ =
      (.ok σ.cur.next_id, { σ with cur := { σ.cur with next_id := σ.cur.next_id + 1 } }) := rfl

theorem ossAddKey_apply (k : String) (σ : Sess) :
    ossAddKey k σ = (.ok (), { σ with oss_keys := σ.oss_keys ++ [k] }) := rfl

theorem ossDeleteKey_apply (k : String) (σ : Sess) :
    ossDeleteKey k σ =
      (.ok (), { σ with oss_keys := σ.oss_keys.filter (fun k2 => k2 != k) }) := rfl

/-- find? commutes with a map that does not disturb the predicate. -/
theorem find?_map_pred {α : Type} (l : List α) (h : α → α) (p : α → Bool)
    (hp : ∀ a, p (h a) = p a) : (l.map h).find? p = (l.find? p).map h := by
  induction l with
  | nil => rfl
  | cons a t ih =>
    simp only [List.map_cons, List.find?]
    rw [hp a]
    cases hpa : p a
    · exact ih
    · rfl

/-- Looking a task file up after an id-preserving row update. -/
theorem findTaskFile_upd (s : St) (fid fid2 : Nat) (g : TaskFile → TaskFile)
    (hg : ∀ f, (g f).id = f.id) :
    findTaskFile (updTaskFileSt s fid g) fid2 =
      (findTaskFile s fid2).map (fun f => if f.id == fid then g f else f) := by
  unfold findTaskFile updTaskFileSt
  exact find?_map_pred _ _ _ (fun a => by
    by_cases h : a.id == fid
    · simp [h, hg]
    · simp [h])

/-- Looking a task up after an id-preserving row update. -/
theorem findTask_upd (s : St) (tid tid2 : Nat) (g : UploadTask → UploadTask)
    (hg : ∀ t, (g t).id = t.id) :
    findTask (updTaskSt s tid g) tid2 =
      (findTask s tid2).map (fun t => if t.id == tid then g t else t) := by
  unfold findTask updTaskSt
  exact find?_map_pred _ _ _ (fun a => by
    by_cases h : a.id == tid
    · simp [h, hg]
    · simp [h])

/-- Looking a task up by id after the owner-filtered lookup succeeded: some
row with that id exists, and every row that can be found has the id. -/
theorem findTask_isSome_of_owned (s : St) (tid uid : Nat) (t : UploadTask)
    (h : findTaskOwned s tid uid = some t) : ∃ t2, findTask s tid = some t2 := by
  unfold findTaskOwned at h
  unfold findTask
  have hmem := List.mem_of_find?_eq_some h
  have hp := List.find?_some h
  have : ∃ x ∈ s.tasks, (x.id == tid) = true := by
    refine ⟨t, hmem, ?_⟩
    simp only [Bool.and_eq_true] at hp
    exact hp.1
  have := List.find?_isSome.mpr this
  exact Option.isSome_iff_exists.mp this


/-- C2 counterexample.  mark_file_completed increments the rollups
(upload_task_service lines 559-560) instead of re-scanning.  Replaying the
completion notification with the SAME object key k dies on the files.oss_key
UNIQUE constraint at the flush (line 553) before the increments are reached:
the call errors and rolls back, leaving the counters at (1, 50).  But a
replay carrying a fresh key k2 (a client re-upload of the same file) passes
the constraint and runs the increments again: uploaded_files 2 and
uploaded_size 100 with exactly one COMPLETED TaskFile of size 50, breaking
uploaded_files less-or-equal total_files (= 1).  The claimed invariant
therefore fails at a reachable state. -/
theorem C2_counterexample_duplicate_notification_inflates :
    rollupConsistent markTrace1.1 = true ∧
    (findTask markTrace1.1 100).map
      (fun t => (t.uploaded_files, t.uploaded_size, t.total_files)) = some (1, 50, 1) ∧
    (execOp (markFileCompleted 1000 100 101 10 "k" "u" (some "h1") (some 50))
        markTrace1.1 markTrace1.2).1 =
      .error (.integrityError "UNIQUE constraint failed: files.oss_key") ∧
    (execOp (markFileCompleted 1000 100 101 10 "k" "u" (some "h1") (some 50))
        markTrace1.1 markTrace1.2).2.1 = markTrace1.1 ∧
    rollupConsistent markTrace.1 = false ∧
    (findTask markTrace.1 100).map
      (fun t => (t.uploaded_files, t.uploaded_size, t.total_files)) = some (2, 100, 1) ∧
    ((filesOfTask markTrace.1 100).filter
      (fun f => isSuccessTerminal f.status)).length = 1 := by
  decide

/-- C6 counterexample.  check_and_complete_task has no at-least-one-file
guard: Python all(...) over the empty TaskFile list is True, so invoking the
aggregation on a task with zero TaskFiles transitions it from PENDING to
COMPLETED, stamps completed_at and persists a StorageManifest — the claim
says a zero-file task is never auto-completed by this path. -/
theorem C6_counterexample_zero_file_task_completed :
    (filesOfTask zeroTrace.1 100).length = 0 ∧
    (findTask zeroTrace.1 100).map (fun t => t.status) = some .pending ∧
    (findTask (execOp (checkAndCompleteTask 1000 100) zeroTrace.1 zeroTrace.2).2.1 100).map
      (fun t => (t.status, t.completed_at, t.storage_manifest.isSome)) =
      some (.completed, some 1000, true) := by
  decide

/-- C7 counterexample.  cancel_task delegates to update_task_status, which
assigns the new status unconditionally (upload_task_service line 288): the
owner cancelling a COMPLETED task changes its status to CANCELLED, while the
claim says a cancel of a terminal task does not change its status. -/
theorem C7_counterexample_cancel_completed_task :
    (findTask stDone 2).map (fun t => t.status) = some .completed ∧
    (findTask (execOp (cancelTask 1000 2 10) stDone []).2.1 2).map (fun t => t.status) =
      some .cancelled := by
  decide

end Yuntu

namespace Yuntu

/-- C8.  retry_file raises the InvalidState client error (HTTP 400) exactly
when can_retry is false — i.e. when the TaskFile is not FAILED or its
retry_count has reached 3 — leaving the whole state unchanged; when
can_retry holds it resets status to PENDING, clears error_message, resets
upload_progress to 0 and leaves retry_count (and every other field)
unchanged, so after a failure with retry_count 1 a retry reports PENDING
with retry_count still 1, and retry_count 3 or more can never be retried. -/
theorem C8_retry_file_spec (s : St) (oss : List String) (fid uid : Nat)
    (tf : TaskFile) (task : UploadTask)
    (hf : findTaskFile s fid = some tf)
    (ht : findTaskOwned s tf.task_id uid = some task) :
    tf.can_retry = (tf.status == .failed && tf.retry_count < 3) ∧
    (tf.can_retry = false →
      (execOp (retryFile fid uid) s oss).1 =
        .error (.http 400 "File cannot be retried (max retries reached or not failed)") ∧
      (execOp (retryFile fid uid) s oss).2 = (s, oss)) ∧
    (tf.can_retry = true →
      (execOp (retryFile fid uid) s oss).1 =
        .ok { task_file_id := fid, status := "pending", retry_count := tf.retry_count,
              message := "File reset to pending, ready for retry" } ∧
      (execOp (retryFile fid uid) s oss).2 =
        (updTaskFileSt s fid (fun f =>
          { f with status := .pending, error_message := none,
                   upload_progress := { num := 0 } }), oss)) := by
  have hf2 : s.task_files.find? (fun f => f.id == fid) = some tf := hf
  have hid : (tf.id == fid) = true := by
    have h3 := List.find?_some hf2
    simpa using h3
  have hid2 : tf.id = fid := by simpa using hid
  refine ⟨rfl, ?_, ?_⟩
  · intro hcr
    unfold execOp retryFile getTaskFileChecked getTaskOwned
    simp only [bind_eq_bnd, pure_eq_ret, bnd_apply, ret_apply, thr_apply, readCur_apply,
      modCur_apply, commitM_apply, hf, ht, hcr]
    exact ⟨rfl, rfl⟩
  · intro hcr
    unfold execOp retryFile getTaskFileChecked getTaskOwned
    simp only [bind_eq_bnd, pure_eq_ret, bnd_apply, ret_apply, thr_apply, readCur_apply,
      modCur_apply, commitM_apply, hf, ht, hcr, if_true]
    have hupd := findTaskFile_upd s fid fid
      (fun f => { f with status := FileUploadStatus.pending, error_message := none,
                         upload_progress := { num := 0 } }) (fun f => rfl)
    rw [hupd, hf]
    simp [hid2, fileStatusValue]

/-- Witness for C8: in the concrete failed-file state (FAILED, retry_count 1)
the hypotheses hold and the retry succeeds with retry_count still 1. -/
theorem C8_retry_file_spec_witness :
    tfFailedT.can_retry = true ∧
    (execOp (retryFile 3 10) stFailed []).1 =
      .ok { task_file_id := 3, status := "pending", retry_count := 1,
            message := "File reset to pending, ready for retry" } := by
  have h := C8_retry_file_spec stFailed [] 3 10 tfFailedT taskFailedT rfl rfl
  exact ⟨rfl, (h.2.2 rfl).1⟩

end Yuntu

namespace Yuntu

/-- C7 amended.  cancel_task succeeds only for the task's owner: a non-owner
or missing task gets the 404 NotFound error and the state (database and blob
store) is unchanged.  For the owner it transitions the task to CANCELLED
unconditionally — from ANY state, terminal ones included (see the
counterexample for a COMPLETED task being cancelled) — and it never touches
the TaskFiles, so in-flight chunk sessions are not aborted. -/
theorem C7_cancel_task_spec (now tid uid : Nat) (s : St) (oss : List String) :
    (findTaskOwned s tid uid = none →
      (execOp (cancelTask now tid uid) s oss).1 =
        .error (.http 404 "Task not found or access denied") ∧
      (execOp (cancelTask now tid uid) s oss).2 = (s, oss)) ∧
    (∀ t, findTaskOwned s tid uid = some t →
      (execOp (cancelTask now tid uid) s oss).2 =
        (updTaskSt s tid (fun t2 => { t2 with status := .cancelled }), oss) ∧
      (execOp (cancelTask now tid uid) s oss).2.1.task_files = s.task_files ∧
      (∃ t2, (execOp (cancelTask now tid uid) s oss).1 = .ok t2 ∧
        t2.status = .cancelled)) := by
  constructor
  · intro hnone
    unfold execOp cancelTask updateTaskStatus getTaskOwned
    simp only [bind_eq_bnd, pure_eq_ret, bnd_apply, ret_apply, thr_apply, readCur_apply,
      modCur_apply, commitM_apply, hnone]
    exact ⟨trivial, trivial⟩
  · intro t ht
    have ht2b : s.tasks.find? (fun x => x.id == tid && x.user_id == uid) = some t := ht
    obtain ⟨t2, ht2⟩ := findTask_isSome_of_owned s tid uid t ht
    have ht2c : s.tasks.find? (fun x => x.id == tid) = some t2 := ht2
    have hid : (t2.id == tid) = true := by
      have h3 := List.find?_some ht2c
      simpa using h3
    unfold execOp cancelTask updateTaskStatus getTaskOwned
    simp only [bind_eq_bnd, pure_eq_ret, bnd_apply, ret_apply, thr_apply, readCur_apply,
      modCur_apply, commitM_apply, ht]
    have hneq : (TaskStatus.cancelled == TaskStatus.completed) = false := rfl
    simp only [hneq, Bool.false_eq_true, if_false]
    have hupd := findTask_upd s tid tid
      (fun t2 => { t2 with status := TaskStatus.cancelled }) (fun t2 => rfl)
    rw [hupd, ht2]
    simp only [Option.map_some, hid, if_true]
    refine ⟨rfl, rfl, ⟨_, rfl, ?_⟩⟩
    simp [hid]

/-- Witness for C7: the owner cancels the concrete COMPLETED task; the task
files are untouched and the returned task is CANCELLED. -/
theorem C7_cancel_task_spec_witness :
    (execOp (cancelTask 1000 2 10) stDone []).2.1.task_files = stDone.task_files ∧
    (∃ t2, (execOp (cancelTask 1000 2 10) stDone []).1 = .ok t2 ∧
      t2.status = .cancelled) := by
  have h := (C7_cancel_task_spec 1000 2 10 stDone []).2 taskDoneT rfl
  exact ⟨h.2.1, h.2.2⟩

/-- C6 amended.  check_and_complete_task transitions the task to COMPLETED,
stamps completed_at with the clock value and persists a StorageManifest
exactly when ALL of its TaskFiles are in a success terminal state — a
condition that is vacuously true for a task with zero TaskFiles (see the
counterexample) — and the task is not already COMPLETED; there is no
at-least-one-file guard in the function.  When some TaskFile is not success
terminal the call returns none and changes nothing; when all are success
terminal but the task is already COMPLETED it returns the task row unchanged
and changes nothing — completed_at is not re-stamped and no manifest is
re-persisted. -/
theorem C6_check_and_complete_spec (now tid : Nat) (s : St) (oss : List String)
    (task : UploadTask) (d : Drive)
    (ht : findTask s tid = some task)
    (hd : findDrive s task.drive_id = some d) :
    ((filesOfTask s tid).all (fun f => isSuccessTerminal f.status) = true →
      task.status ≠ .completed →
      ∃ t2, findTask (execOp (checkAndCompleteTask now tid) s oss).2.1 tid = some t2 ∧
        t2.status = .completed ∧ t2.completed_at = some now ∧
        t2.storage_manifest.isSome = true) ∧
    ((filesOfTask s tid).all (fun f => isSuccessTerminal f.status) = false →
      execOp (checkAndCompleteTask now tid) s oss = (.ok none, s, oss)) ∧
    ((filesOfTask s tid).all (fun f => isSuccessTerminal f.status) = true →
      task.status = .completed →
      execOp (checkAndCompleteTask now tid) s oss = (.ok (some task), s, oss)) := by
  have ht2 : s.tasks.find? (fun x => x.id == tid) = some task := ht
  have hid : (task.id == tid) = true := by
    have h3 := List.find?_some ht2
    simpa using h3
  refine ⟨?_, ?_, ?_⟩
  · intro hall hstat
    have hne : (task.status != TaskStatus.completed) = true := by
      simpa using hstat
    unfold execOp checkAndCompleteTask generateStorageManifest scalarOneTask
    simp only [bind_eq_bnd, pure_eq_ret, bnd_apply, ret_apply, thr_apply, readCur_apply,
      modCur_apply, commitM_apply, ht, hd, hall, hne, Bool.true_and, if_true]
    have hupd := findTask_upd s tid tid
      (fun t => { t with status := TaskStatus.completed,
                         storage_manifest := some
                           { task_id := task.id, task_name := task.task_name,
                             user_id := task.user_id, drive_id := task.drive_id,
                             drive_name := d.name, status := task.status,
                             summary :=
                               { total_files := task.total_files
                                 uploaded_files := ((filesOfTask s tid).filter
                                   (fun f => f.status == .completed)).length
                                 failed_files := ((filesOfTask s tid).filter
                                   (fun f => f.status == .failed)).length
                                 skipped_files := ((filesOfTask s tid).filter
                                   (fun f => f.status == .skipped)).length
                                 total_size := task.total_size
                                 storage_saved := (((filesOfTask s tid).filter
                                   (fun f => f.is_duplicated)).map (fun f => f.file_size)).sum }
                             completed_at := task.completed_at
                             files := ((filesOfTask s tid).foldl manifestFold ([], [], [], [])).1
                             local_to_oss :=
                               ((filesOfTask s tid).foldl manifestFold ([], [], [], [])).2.1
                             local_to_virtual :=
                               ((filesOfTask s tid).foldl manifestFold ([], [], [], [])).2.2.1
                             oss_to_file_id :=
                               ((filesOfTask s tid).foldl manifestFold ([], [], [], [])).2.2.2 },
                         completed_at := some now }) (fun t => rfl)
    rw [hupd, ht]
    simp only [Option.map_some, hid, if_true]
    refine ⟨_, rfl, ?_, ?_, ?_⟩ <;> simp [hid]
  · intro hall
    unfold execOp checkAndCompleteTask
    simp only [bind_eq_bnd, pure_eq_ret, bnd_apply, ret_apply, thr_apply, readCur_apply,
      modCur_apply, commitM_apply, ht, hall, Bool.false_and, if_false]
    rfl
  · intro hall hstat
    have hne : (task.status != TaskStatus.completed) = false := by
      simp [hstat]
    unfold execOp checkAndCompleteTask
    simp only [bind_eq_bnd, pure_eq_ret, bnd_apply, ret_apply, thr_apply, readCur_apply,
      modCur_apply, ht, hall, hne, Bool.and_false, Bool.false_eq_true, if_false, if_true]

/-- Witness for C6: the zero-file task satisfies the all-success condition
vacuously and is completed by the aggregation with a persisted manifest. -/
theorem C6_check_and_complete_spec_witness :
    (filesOfTask zeroTrace.1 100).all (fun f => isSuccessTerminal f.status) = true ∧
    (∃ t2, findTask (execOp (checkAndCompleteTask 1000 100) zeroTrace.1 zeroTrace.2).2.1 100 =
        some t2 ∧
      t2.status = .completed ∧ t2.completed_at = some 1000 ∧
      t2.storage_manifest.isSome = true) := by
  have h := C6_check_and_complete_spec 1000 100 zeroTrace.1 zeroTrace.2 taskZeroT
    { id := 1, user_id := 10 } (by decide) (by decide)
  exact ⟨by decide, h.1 (by decide) (by decide)⟩

/-- C2 amended.  The re-scan part of the claim holds for
_update_task_progress: whenever it completes successfully, the task's
uploaded_files equals the number of its TaskFiles in a success terminal state
and uploaded_size the sum of their sizes, recomputed from all child rows.
But mark_file_completed updates the same rollups by incrementing
(upload_task_service lines 559-560) rather than re-scanning, so the invariant
does not hold at every reachable state: after the fresh-key replay of the
completion notification (the counterexample trace; a same-key replay is
stopped by the files.oss_key UNIQUE constraint instead) the task shows
uploaded_files 2 and uploaded_size 100 while exactly one TaskFile (of size
50) is COMPLETED. -/
theorem C2_rollup_spec (tid : Nat) (s : St) (oss : List String)
    (hok : (execOp (updateTaskProgress tid) s oss).1 = .ok ()) :
    (∀ t, findTask (execOp (updateTaskProgress tid) s oss).2.1 tid = some t →
      t.uploaded_files =
        ((filesOfTask (execOp (updateTaskProgress tid) s oss).2.1 tid).filter
          (fun f => isSuccessTerminal f.status)).length ∧
      t.uploaded_size =
        (((filesOfTask (execOp (updateTaskProgress tid) s oss).2.1 tid).filter
          (fun f => isSuccessTerminal f.status)).map (fun f => f.file_size)).sum) ∧
    (findTask markTrace.1 100).map (fun t => (t.uploaded_files, t.uploaded_size)) =
      some (2, 100) ∧
    ((filesOfTask markTrace.1 100).filter (fun f => isSuccessTerminal f.status)).length = 1 := by
  refine ⟨?_, by decide, by decide⟩
  cases hfind : findTask s tid with
  | none =>
    exfalso
    unfold execOp updateTaskProgress scalarOneTask at hok
    simp only [bind_eq_bnd, pure_eq_ret, bnd_apply, ret_apply, thr_apply, readCur_apply,
      modCur_apply, commitM_apply, hfind] at hok
    exact absurd hok (by simp)
  | some task =>
    cases hup : (filesOfTask s tid).any (fun f => f.status == .uploading) with
    | true =>
      exfalso
      unfold execOp updateTaskProgress scalarOneTask at hok
      simp only [bind_eq_bnd, pure_eq_ret, bnd_apply, ret_apply, thr_apply, readCur_apply,
        modCur_apply, commitM_apply, hfind, hup, if_true] at hok
      exact absurd hok (by simp)
    | false =>
      unfold execOp updateTaskProgress scalarOneTask
      simp only [bind_eq_bnd, pure_eq_ret, bnd_apply, ret_apply, thr_apply, readCur_apply,
        modCur_apply, commitM_apply, hfind, hup, Bool.false_eq_true, if_false]
      intro t htf
      have hupd := findTask_upd s tid tid
        (fun t => { t with
          uploaded_files :=
            ((filesOfTask s tid).filter (fun f => isSuccessTerminal f.status)).length,
          uploaded_size :=
            (((filesOfTask s tid).filter (fun f => isSuccessTerminal f.status)).map
              (fun f => f.file_size)).sum }) (fun t => rfl)
      rw [hupd, hfind] at htf
      have hid : (task.id == tid) = true := by
        have h3 := List.find?_some (hfind : s.tasks.find? (fun x => x.id == tid) = some task)
        simpa using h3
      simp only [Option.map_some', Option.map_some, hid, if_true, Option.some.injEq] at htf
      subst htf
      exact ⟨rfl, rfl⟩

/-- Witness for C2: running _update_task_progress on the inflated trace state
succeeds (no file is UPLOADING there) and restores the rescan equalities. -/
theorem C2_rollup_spec_witness :
    (execOp (updateTaskProgress 100) markTrace.1 markTrace.2).1 = .ok () ∧
    (∀ t, findTask (execOp (updateTaskProgress 100) markTrace.1 markTrace.2).2.1 100 = some t →
      t.uploaded_files =
        ((filesOfTask (execOp (updateTaskProgress 100) markTrace.1 markTrace.2).2.1 100).filter
          (fun f => isSuccessTerminal f.status)).length ∧
      t.uploaded_size =
        (((filesOfTask (execOp (updateTaskProgress 100) markTrace.1 markTrace.2).2.1 100).filter
          (fun f => isSuccessTerminal f.status)).map (fun f => f.file_size)).sum) :=
  ⟨by decide, (C2_rollup_spec 100 markTrace.1 markTrace.2 (by decide)).1⟩

end Yuntu

namespace Yuntu

/-- C3.  When upload_file has stored the bytes and created the File row for
file 4 of a task while the sibling file 3 still has status UPLOADING, the
subsequent _update_task_progress raises the unhandled NameError (TaskStatus
is referenced at file_upload_service line 668 but never imported there); the
surrounding exception handler then marks the just-uploaded TaskFile FAILED,
records the NameError text as error_message, increments retry_count from r to
r + 1, and the call fails with HTTP 500 — yet the new File row (id 101, in
the task's drive) and the stored blob object (key uploads/100.bin) persist,
and the half-recomputed rollups (uploaded_files 1) were committed by the
handler's commit.  This holds for every blob-store oracle, every byte
content, every prior retry count r and every prior status of file 4. -/
theorem C3_upload_file_name_error_spec (env : Env) (content : String) (r : Nat)
    (stB : FileUploadStatus) :
    (execOp (uploadFile env 4 content 10) (stNameErr r stB) []).1 =
      .error (.http 500 "File upload failed: name TaskStatus is not defined") ∧
    ((execOp (uploadFile env 4 content 10) (stNameErr r stB) []).2.1.files.map
      (fun f => (f.id, f.oss_key, f.drive_id))) = [(101, "uploads/100.bin", 1)] ∧
    (execOp (uploadFile env 4 content 10) (stNameErr r stB) []).2.2 = ["uploads/100.bin"] ∧
    (findTaskFile (execOp (uploadFile env 4 content 10) (stNameErr r stB) []).2.1 4).map
      (fun f => (f.status, f.error_message, f.retry_count, f.file_id)) =
      some (.failed, some "name TaskStatus is not defined", r + 1, some 101) ∧
    (findTask (execOp (uploadFile env 4 content 10) (stNameErr r stB) []).2.1 2).map
      (fun t => (t.status, t.uploaded_files, t.uploaded_size)) =
      some (.pending, 1, 10) := by
  have h1 : ("uploads/" ++ toString (100 : Nat) ++ fileExtension "b.bin") = "uploads/100.bin" := by
    decide
  have e1 : isSuccessTerminal .uploading = false := rfl
  have e2 : isSuccessTerminal .completed = true := rfl
  simp [execOp, uploadFile, getTaskFileChecked, getTaskOwned, checkFileByMd5, generateOssKey,
    createNewFile, flushFile, getFolderId, scalarOneTask, updateTaskProgress, stNameErr, tfUploadingT,
    bind_eq_bnd, pure_eq_ret, bnd_apply, ret_apply, thr_apply, readCur_apply,
    modCur_apply, commitM_apply, freshId_apply, ossAddKey_apply, tryM_apply,
    findTaskFile, findTask, findTaskOwned, filesOfTask, updTaskFileSt, updTaskSt,
    List.find?, List.filter, List.map, List.any, List.all, errString, h1, e1, e2]

end Yuntu

namespace Yuntu

/-- C4 refuted (code bug).  Every dedup resolution path — the batch
check-exists hit (processCheckItem inside check_files_exist, lines 100-114)
and the single-shot / multipart post-transfer hash match
(_create_file_reference, lines 570-579) — builds its new File row with
oss_key copied from the MATCHED row, a key that is by construction already
present in the files table, while files.oss_key is UNIQUE
(app/models/file.py line 32).  The flush therefore raises IntegrityError on
every dedup resolution.  In the concrete two-drive state: the single-shot
upload of task file 61, whose content hash matches the drive-1 row, fails
with PendingRollbackError (the failed flush poisons the session, so the
exception handler commit dies too) and rolls back to the state committed
before the try block — file 61 left UPLOADING, no new File row, no blob
object; the batch check on the same state surfaces the IntegrityError itself
and changes nothing.  The new File row the claim describes is never created
on any path. -/
theorem C4_dedup_integrity_error :
    (execOp (uploadFile envA 61 "content" 10) stDedup []).1 =
      .error .pendingRollback ∧
    (execOp (uploadFile envA 61 "content" 10) stDedup []).2.1.files = [fileOrigT] ∧
    (findTaskFile (execOp (uploadFile envA 61 "content" 10) stDedup []).2.1 61).map
      (fun f => (f.status, f.is_duplicated, f.duplicated_from, f.file_id)) =
      some (.uploading, false, none, none) ∧
    (execOp (uploadFile envA 61 "content" 10) stDedup []).2.2 = [] ∧
    (execOp (checkFilesExist 60
        [{ task_file_id := 61, md5 := "h", file_size := 40 }] 10) stDedup []).1 =
      .error (.integrityError "UNIQUE constraint failed: files.oss_key") ∧
    (execOp (checkFilesExist 60
        [{ task_file_id := 61, md5 := "h", file_size := 40 }] 10) stDedup []).2 =
      (stDedup, []) := by
  decide

end Yuntu

namespace Yuntu

theorem TMono_refl (s : St) : TMono s s := fun _ t1 h hc => ⟨t1, h, hc⟩

theorem TMono_trans {s1 s2 s3 : St} (h12 : TMono s1 s2) (h23 : TMono s2 s3) :
    TMono s1 s3 := by
  intro tid t1 h hc
  obtain ⟨t2, h2, hc2⟩ := h12 tid t1 h hc
  exact h23 tid t2 h2 hc2

theorem TMono_of_tasks_eq {s1 s2 : St} (h : s2.tasks = s1.tasks) : TMono s1 s2 := by
  intro tid t1 hf hc
  refine ⟨t1, ?_, hc⟩
  unfold findTask at hf ⊢
  rw [h]
  exact hf

theorem TMono_updTask (s : St) (tid : Nat) (g : UploadTask → UploadTask)
    (hg : ∀ t, (g t).id = t.id)
    (hcc : ∀ t, ccStatus t.status → ccStatus (g t).status) :
    TMono s (updTaskSt s tid g) := by
  intro tid2 t1 hf hc
  rw [findTask_upd s tid tid2 g hg, hf]
  cases h : t1.id == tid with
  | true => exact ⟨g t1, by rw [Option.map_some', if_pos h], hcc t1 hc⟩
  | false =>
    have hnc : ¬((t1.id == tid) = true) := by simp [h]
    exact ⟨t1, by rw [Option.map_some', if_neg hnc], hc⟩

theorem TMono_append_task (s : St) (l : List UploadTask) :
    TMono s { s with tasks := s.tasks ++ l } := by
  intro tid t1 hf hc
  refine ⟨t1, ?_, hc⟩
  unfold findTask at hf ⊢
  simp only [List.find?_append, hf]
  rfl

theorem SP_refl (σ : Sess) : SP σ σ := ⟨TMono_refl _, .inr rfl⟩

theorem SP_trans {σ1 σ2 σ3 : Sess} (h12 : SP σ1 σ2) (h23 : SP σ2 σ3) : SP σ1 σ3 := by
  refine ⟨TMono_trans h12.1 h23.1, ?_⟩
  rcases h23.2 with h | h
  · exact .inl (TMono_trans h12.1 h)
  · rw [h]
    exact h12.2

theorem monoM_ret {α : Type} (a : α) : MonoM (ret a) := fun σ => SP_refl σ

theorem monoM_thr {α : Type} (e : Err) : MonoM (thr e : M α) := fun σ => SP_refl σ

theorem monoM_pure {α : Type} (a : α) : MonoM (pure a : M α) := fun σ => SP_refl σ

theorem monoM_bnd {α β : Type} {m : M α} {k : α → M β}
    (hm : MonoM m) (hk : ∀ a, MonoM (k a)) : MonoM (bnd m k) := by
  intro σ
  rw [bnd_apply]
  cases hms : m σ with
  | mk r σ2 =>
    have h1 : SP σ σ2 := by have := hm σ; rw [hms] at this; exact this
    cases r with
    | ok a => exact SP_trans h1 (hk a σ2)
    | error e => exact h1

theorem monoM_bind {α β : Type} {m : M α} {k : α → M β}
    (hm : MonoM m) (hk : ∀ a, MonoM (k a)) : MonoM (m >>= k) := by
  rw [bind_eq_bnd]
  exact monoM_bnd hm hk

theorem monoM_tryM {α : Type} {m : M α} {h : Err → M α}
    (hm : MonoM m) (hh : ∀ e, MonoM (h e)) : MonoM (tryM m h) := by
  intro σ
  rw [tryM_apply]
  cases hms : m σ with
  | mk r σ2 =>
    have h1 : SP σ σ2 := by have := hm σ; rw [hms] at this; exact this
    cases r with
    | ok a => exact h1
    | error e => exact SP_trans h1 (hh e σ2)

theorem monoM_readCur : MonoM readCur := fun σ => SP_refl σ

theorem monoM_commitM : MonoM commitM := by
  intro σ
  unfold commitM
  by_cases h : σ.poisoned = true
  · rw [if_pos h]
    exact SP_refl σ
  · rw [if_neg h]
    exact ⟨TMono_refl _, .inl (TMono_refl _)⟩

theorem monoM_flushFail (d : String) : MonoM (flushFail d) := fun _ =>
  ⟨TMono_refl _, .inr rfl⟩

theorem monoM_flushFile (row : File) : MonoM (flushFile row) := by
  intro σ
  unfold flushFile
  by_cases h : (σ.cur.files.any (fun f => f.oss_key == row.oss_key)) = true
  · rw [if_pos h]
    exact ⟨TMono_refl _, .inr rfl⟩
  · rw [if_neg h]
    exact ⟨TMono_of_tasks_eq rfl, .inr rfl⟩

theorem monoM_freshId : MonoM freshId := fun _ =>
  ⟨TMono_of_tasks_eq rfl, .inr rfl⟩

theorem monoM_ossAddKey (k : String) : MonoM (ossAddKey k) := fun _ =>
  ⟨TMono_refl _, .inr rfl⟩

theorem monoM_ossDeleteKey (k : String) : MonoM (ossDeleteKey k) := fun _ =>
  ⟨TMono_refl _, .inr rfl⟩

theorem monoM_modCur {g : St → St} (hg : ∀ s, TMono s (g s)) : MonoM (modCur g) :=
  fun σ => ⟨hg σ.cur, .inr rfl⟩

theorem monoM_modCur_tasks_eq {g : St → St} (hg : ∀ s, (g s).tasks = s.tasks) :
    MonoM (modCur g) :=
  monoM_modCur (fun s => TMono_of_tasks_eq (hg s))

theorem monoM_ite {α : Type} {c : Prop} [Decidable c] {m1 m2 : M α}
    (h1 : MonoM m1) (h2 : MonoM m2) : MonoM (if c then m1 else m2) := by
  by_cases h : c
  · rwa [if_pos h]
  · rwa [if_neg h]

theorem monoM_getTaskOwned (tid uid : Nat) : MonoM (getTaskOwned tid uid) := by
  unfold getTaskOwned
  exact monoM_bind monoM_readCur (fun s => monoM_ret _)

theorem monoM_scalarOneTask (tid : Nat) : MonoM (scalarOneTask tid) := by
  unfold scalarOneTask
  refine monoM_bind monoM_readCur (fun s => ?_)
  cases findTask s tid with
  | none => exact monoM_thr _
  | some t => exact monoM_ret _

theorem monoM_getTaskFileChecked (fid uid : Nat) : MonoM (getTaskFileChecked fid uid) := by
  unfold getTaskFileChecked
  refine monoM_bind monoM_readCur (fun s => ?_)
  cases findTaskFile s fid with
  | none => exact monoM_thr _
  | some tf =>
    refine monoM_bind (monoM_getTaskOwned _ _) (fun t? => ?_)
    cases t? with
    | none => exact monoM_thr _
    | some t => exact monoM_ret _

theorem monoM_checkFileByMd5 (m : String) : MonoM (checkFileByMd5 m) := by
  unfold checkFileByMd5
  exact monoM_bind monoM_readCur (fun s => monoM_ret _)

theorem monoM_generateOssKey (fn : String) : MonoM (generateOssKey fn) := by
  unfold generateOssKey
  exact monoM_bind monoM_freshId (fun n => monoM_ret _)

theorem monoM_getFolderId (tid : Nat) (p : String) : MonoM (getFolderId tid p) := by
  unfold getFolderId
  refine monoM_ite (monoM_ret _) ?_
  refine monoM_bind (monoM_scalarOneTask _) (fun task => ?_)
  exact monoM_bind monoM_readCur (fun s => monoM_ret _)

theorem monoM_createFileReference (tf : TaskFile) (ef : File) (uid : Nat) (m : String) :
    MonoM (createFileReference tf ef uid m) := by
  unfold createFileReference
  refine monoM_bind (monoM_getFolderId _ _) (fun fid => ?_)
  refine monoM_bind monoM_freshId (fun n => ?_)
  exact monoM_bind (monoM_flushFile _) (fun _ => monoM_ret _)

theorem monoM_createNewFile (tf : TaskFile) (k u m : String) (uid : Nat) :
    MonoM (createNewFile tf k u m uid) := by
  unfold createNewFile
  refine monoM_bind (monoM_scalarOneTask _) (fun task => ?_)
  refine monoM_bind (monoM_getFolderId _ _) (fun fid => ?_)
  refine monoM_bind monoM_freshId (fun n => ?_)
  exact monoM_bind (monoM_flushFile _) (fun _ => monoM_ret _)

theorem monoM_updTask_status_preserving (tid : Nat) (g : UploadTask → UploadTask)
    (hg : ∀ t, (g t).id = t.id) (hst : ∀ t, (g t).status = t.status) :
    MonoM (modCur (fun st => updTaskSt st tid g)) := by
  refine monoM_modCur (fun s => TMono_updTask s tid g hg ?_)
  intro t hc
  rw [hst t]
  exact hc

theorem monoM_updateTaskProgress (tid : Nat) : MonoM (updateTaskProgress tid) := by
  unfold updateTaskProgress
  refine monoM_bind monoM_readCur (fun s => ?_)
  refine monoM_bind (monoM_scalarOneTask _) (fun task => ?_)
  refine monoM_bind (monoM_updTask_status_preserving _ _ (fun t => rfl) (fun t => rfl))
    (fun _ => ?_)
  exact monoM_ite (monoM_thr _) monoM_commitM

theorem monoM_generateStorageManifest (tid : Nat) : MonoM (generateStorageManifest tid) := by
  unfold generateStorageManifest
  refine monoM_bind monoM_readCur (fun s => ?_)
  refine monoM_bind (monoM_scalarOneTask _) (fun task => ?_)
  cases findDrive s task.drive_id with
  | none => exact monoM_thr _
  | some d => exact monoM_ret _

theorem monoM_checkAndCompleteTask (now tid : Nat) : MonoM (checkAndCompleteTask now tid) := by
  unfold checkAndCompleteTask
  refine monoM_bind monoM_readCur (fun s => ?_)
  cases findTask s tid with
  | none => exact monoM_ret _
  | some task =>
    refine monoM_bind (monoM_ite ?_ (monoM_ret _)) (fun _ => ?_)
    · refine monoM_bind (monoM_generateStorageManifest _) (fun man => ?_)
      refine monoM_bind (monoM_modCur ?_) (fun _ => monoM_commitM)
      intro s2
      refine TMono_updTask s2 tid _ (fun t => rfl) ?_
      intro t hc
      exact .inl rfl
    · refine monoM_ite ?_ (monoM_ret _)
      exact monoM_bind monoM_readCur (fun s2 => monoM_ret _)

end Yuntu

namespace Yuntu

theorem monoM_markFileCompleted (now tid fid uid : Nat) (k u : String)
    (md5 : Option String) (fsz : Option Nat) :
    MonoM (markFileCompleted now tid fid uid k u md5 fsz) := by
  unfold markFileCompleted
  refine monoM_bind (monoM_getTaskOwned _ _) (fun t? => ?_)
  cases t? with
  | none => exact monoM_thr _
  | some task =>
    refine monoM_bind monoM_readCur (fun s => ?_)
    cases s.task_files.find? (fun f => f.id == fid && f.task_id == tid) with
    | none => exact monoM_thr _
    | some tf0 =>
      refine monoM_bind (monoM_modCur_tasks_eq (fun s2 => rfl)) (fun _ => ?_)
      refine monoM_bind ?_ (fun _ => ?_)
      · cases md5 with
        | none => exact monoM_ret _
        | some m => exact monoM_ite (monoM_modCur_tasks_eq (fun s2 => rfl)) (monoM_ret _)
      · refine monoM_bind ?_ (fun _ => ?_)
        · cases fsz with
          | none => exact monoM_ret _
          | some n => exact monoM_ite (monoM_modCur_tasks_eq (fun s2 => rfl)) (monoM_ret _)
        · refine monoM_bind monoM_readCur (fun s2 => ?_)
          refine monoM_bind monoM_readCur (fun s3 => ?_)
          refine monoM_bind monoM_freshId (fun n => ?_)
          refine monoM_bind ?_ (fun _ => ?_)
          · cases ((findTaskFile s3 fid).getD tf0).md5 with
            | none => exact monoM_flushFail _
            | some m => exact monoM_flushFile _
          refine monoM_bind (monoM_modCur_tasks_eq (fun s4 => rfl)) (fun _ => ?_)
          refine monoM_bind
            (monoM_updTask_status_preserving _ _ (fun t => rfl) (fun t => rfl)) (fun _ => ?_)
          refine monoM_bind (monoM_modCur ?_) (fun _ => ?_)
          · intro s4
            refine TMono_updTask s4 tid _ ?_ ?_
            · intro t
              cases h : t.status == TaskStatus.pending <;> simp [h]
            · intro t hc
              rcases hc with h | h
              · have hb : (t.status == TaskStatus.pending) = false := by
                  rw [h]; rfl
                rw [hb]
                simp only [Bool.false_eq_true, if_false]
                exact .inl h
              · have hb : (t.status == TaskStatus.pending) = false := by
                  rw [h]; rfl
                rw [hb]
                simp only [Bool.false_eq_true, if_false]
                exact .inr h
          · refine monoM_bind monoM_commitM (fun _ => ?_)
            refine monoM_bind (monoM_checkAndCompleteTask _ _) (fun _ => ?_)
            exact monoM_bind monoM_readCur (fun s4 => monoM_ret _)

end Yuntu

namespace Yuntu

theorem monoM_processCheckItem (task : UploadTask) (uid : Nat)
    (m : List (String × File)) (item : FileCheckItem) :
    MonoM (processCheckItem task uid m item) := by
  unfold processCheckItem
  cases dictGet m item.md5 with
  | none => exact monoM_ret _
  | some ef =>
    refine monoM_bind monoM_readCur (fun s => ?_)
    cases findTaskFile s item.task_file_id with
    | none => exact monoM_ret _
    | some tf =>
      refine monoM_bind (monoM_modCur_tasks_eq (fun s2 => rfl)) (fun _ => ?_)
      refine monoM_bind monoM_freshId (fun n => ?_)
      refine monoM_bind (monoM_flushFile _) (fun _ => ?_)
      exact monoM_bind (monoM_modCur_tasks_eq (fun s2 => rfl)) (fun _ => monoM_ret _)

theorem monoM_processCheckItems (task : UploadTask) (uid : Nat)
    (m : List (String × File)) (items : List FileCheckItem) :
    MonoM (processCheckItems task uid m items) := by
  induction items with
  | nil => exact monoM_ret _
  | cons item rest ih =>
    unfold processCheckItems
    refine monoM_bind (monoM_processCheckItem _ _ _ _) (fun hd => ?_)
    refine monoM_bind ih (fun tl => ?_)
    cases hd with
    | none => exact monoM_ret _
    | some info => exact monoM_ret _

theorem monoM_checkFilesExist (tid : Nat) (files : List FileCheckItem) (uid : Nat) :
    MonoM (checkFilesExist tid files uid) := by
  unfold checkFilesExist
  refine monoM_bind (monoM_getTaskOwned _ _) (fun t? => ?_)
  cases t? with
  | none => exact monoM_thr _
  | some task =>
    refine monoM_ite (monoM_ret _) ?_
    refine monoM_bind monoM_readCur (fun s => ?_)
    refine monoM_bind (monoM_processCheckItems _ _ _ _) (fun r => ?_)
    refine monoM_bind monoM_commitM (fun _ => ?_)
    exact monoM_bind (monoM_updateTaskProgress _) (fun _ => monoM_ret _)

theorem monoM_uploadFile (env : Env) (fid : Nat) (content : String) (uid : Nat) :
    MonoM (uploadFile env fid content uid) := by
  unfold uploadFile
  refine monoM_bind (monoM_getTaskFileChecked _ _) (fun tf => ?_)
  refine monoM_bind (monoM_modCur_tasks_eq (fun s => rfl)) (fun _ => ?_)
  refine monoM_bind monoM_commitM (fun _ => ?_)
  refine monoM_tryM ?_ (fun e => ?_)
  · refine monoM_bind (monoM_checkFileByMd5 _) (fun ex? => ?_)
    cases ex? with
    | some ef =>
      dsimp only
      refine monoM_bind (monoM_createFileReference _ _ _ _) (fun nf => ?_)
      refine monoM_bind (monoM_modCur_tasks_eq (fun s => rfl)) (fun _ => ?_)
      refine monoM_bind (monoM_ret _) (fun y => ?_)
      refine monoM_bind monoM_commitM (fun _ => ?_)
      refine monoM_bind (monoM_updateTaskProgress _) (fun _ => ?_)
      refine monoM_bind (monoM_checkAndCompleteTask _ _) (fun _ => ?_)
      exact monoM_bind monoM_readCur (fun s => monoM_ret _)
    | none =>
      dsimp only
      refine monoM_bind (monoM_generateOssKey _) (fun key => ?_)
      refine monoM_bind (monoM_ossAddKey _) (fun _ => ?_)
      refine monoM_bind (monoM_createNewFile _ _ _ _ _) (fun nf => ?_)
      refine monoM_bind (monoM_modCur_tasks_eq (fun s => rfl)) (fun _ => ?_)
      refine monoM_bind (monoM_ret _) (fun y => ?_)
      refine monoM_bind monoM_commitM (fun _ => ?_)
      refine monoM_bind (monoM_updateTaskProgress _) (fun _ => ?_)
      refine monoM_bind (monoM_checkAndCompleteTask _ _) (fun _ => ?_)
      exact monoM_bind monoM_readCur (fun s => monoM_ret _)
  · refine monoM_bind (monoM_modCur_tasks_eq (fun s => rfl)) (fun _ => ?_)
    exact monoM_bind monoM_commitM (fun _ => monoM_thr _)

theorem monoM_initMultipartUpload (env : Env) (req : MultipartInitRequest) (uid : Nat) :
    MonoM (initMultipartUpload env req uid) := by
  unfold initMultipartUpload
  refine monoM_bind (monoM_getTaskFileChecked _ _) (fun tf => ?_)
  refine monoM_bind (monoM_generateOssKey _) (fun key => ?_)
  refine monoM_bind (monoM_modCur_tasks_eq (fun s => rfl)) (fun _ => ?_)
  exact monoM_bind monoM_commitM (fun _ => monoM_ret _)

theorem monoM_uploadChunk (env : Env) (fid ci : Nat) (d : String) (uid : Nat) :
    MonoM (uploadChunk env fid ci d uid) := by
  unfold uploadChunk
  refine monoM_bind (monoM_getTaskFileChecked _ _) (fun tf => ?_)
  cases tf.chunk_info with
  | none => exact monoM_thr _
  | some info =>
    refine monoM_bind (monoM_modCur_tasks_eq (fun s => rfl)) (fun _ => ?_)
    exact monoM_bind monoM_commitM (fun _ => monoM_ret _)

theorem monoM_completeMultipartUpload (env : Env) (fid : Nat)
    (etags : List (Nat × String)) (uid : Nat) :
    MonoM (completeMultipartUpload env fid etags uid) := by
  unfold completeMultipartUpload
  refine monoM_bind (monoM_getTaskFileChecked _ _) (fun tf => ?_)
  cases tf.chunk_info with
  | none => exact monoM_thr _
  | some info =>
    refine monoM_tryM ?_ (fun e => ?_)
    · refine monoM_bind (monoM_ossAddKey _) (fun _ => ?_)
      refine monoM_bind (monoM_checkFileByMd5 _) (fun ex? => ?_)
      cases ex? with
      | some ef =>
        dsimp only
        refine monoM_bind (monoM_ossDeleteKey _) (fun _ => ?_)
        refine monoM_bind (monoM_createFileReference _ _ _ _) (fun nf => ?_)
        refine monoM_bind (monoM_modCur_tasks_eq (fun s => rfl)) (fun _ => ?_)
        refine monoM_bind (monoM_ret _) (fun y => ?_)
        refine monoM_bind (monoM_modCur_tasks_eq (fun s => rfl)) (fun _ => ?_)
        refine monoM_bind monoM_commitM (fun _ => ?_)
        refine monoM_bind (monoM_updateTaskProgress _) (fun _ => ?_)
        refine monoM_bind (monoM_checkAndCompleteTask _ _) (fun _ => ?_)
        exact monoM_bind monoM_readCur (fun s => monoM_ret _)
      | none =>
        dsimp only
        refine monoM_bind (monoM_createNewFile _ _ _ _ _) (fun nf => ?_)
        refine monoM_bind (monoM_modCur_tasks_eq (fun s => rfl)) (fun _ => ?_)
        refine monoM_bind monoM_commitM (fun _ => ?_)
        refine monoM_bind (monoM_updateTaskProgress _) (fun _ => ?_)
        refine monoM_bind (monoM_checkAndCompleteTask _ _) (fun _ => ?_)
        exact monoM_bind monoM_readCur (fun s => monoM_ret _)
    · refine monoM_bind (monoM_modCur_tasks_eq (fun s => rfl)) (fun _ => ?_)
      exact monoM_bind monoM_commitM (fun _ => monoM_thr _)

theorem monoM_abortMultipartUpload (fid uid : Nat) (r : Option String) :
    MonoM (abortMultipartUpload fid uid r) := by
  unfold abortMultipartUpload
  refine monoM_bind (monoM_getTaskFileChecked _ _) (fun tf => ?_)
  cases tf.chunk_info with
  | none => exact monoM_ret _
  | some info =>
    refine monoM_bind (monoM_modCur_tasks_eq (fun s => rfl)) (fun _ => ?_)
    exact monoM_commitM

theorem monoM_retryFile (fid uid : Nat) : MonoM (retryFile fid uid) := by
  unfold retryFile
  refine monoM_bind (monoM_getTaskFileChecked _ _) (fun tf => ?_)
  refine monoM_ite ?_ (monoM_thr _)
  refine monoM_bind (monoM_modCur_tasks_eq (fun s => rfl)) (fun _ => ?_)
  refine monoM_bind monoM_commitM (fun _ => ?_)
  exact monoM_bind monoM_readCur (fun s => monoM_ret _)

theorem ensureFolderLoop_tasks (d u : Nat) (parts : List String) (i : Nat)
    (cp : String) (parent : Option Folder) (s : St) :
    (ensureFolderLoop d u parts i cp parent s).2.tasks = s.tasks := by
  induction parts generalizing i cp parent s with
  | nil => rfl
  | cons part rest ih =>
    unfold ensureFolderLoop
    dsimp only
    split
    · exact ih _ _ _ _
    · exact ih _ _ _ _

theorem ensureFolderExists_tasks (d : Nat) (p : String) (u : Nat) (s : St) :
    (ensureFolderExists d p u s).2.tasks = s.tasks := by
  unfold ensureFolderExists
  by_cases h : (p == "" || p == "/") = true
  · rw [if_pos h]
  · rw [if_neg h]
    cases findFolder s d p with
    | some f => rfl
    | none => exact ensureFolderLoop_tasks _ _ _ _ _ _ _

theorem monoM_ensureFolderM (d : Nat) (p : String) (u : Nat) :
    MonoM (ensureFolderM d p u) := by
  intro σ
  exact ⟨TMono_of_tasks_eq (ensureFolderExists_tasks d p u σ.cur), .inr rfl⟩

theorem monoM_createTaskFiles (d tid uid : Nat) (infos : List ManifestFileInfo) :
    MonoM (createTaskFiles d tid uid infos) := by
  induction infos with
  | nil => exact monoM_ret _
  | cons info rest ih =>
    unfold createTaskFiles
    refine monoM_bind (monoM_ensureFolderM _ _ _) (fun _ => ?_)
    refine monoM_bind monoM_freshId (fun n => ?_)
    exact monoM_bind (monoM_modCur_tasks_eq (fun s => rfl)) (fun _ => ih)

theorem monoM_createTask (man : UploadManifest) (uid : Nat) :
    MonoM (createTask man uid) := by
  unfold createTask
  refine monoM_bind monoM_readCur (fun s => ?_)
  cases s.drives.find? (fun d => d.id == man.drive_id && (d.user_id == uid || d.is_team_drive)) with
  | none => exact monoM_thr _
  | some d =>
    refine monoM_bind monoM_freshId (fun tid => ?_)
    refine monoM_bind (monoM_modCur ?_) (fun _ => ?_)
    · intro s2
      exact TMono_append_task s2 _
    · refine monoM_bind (monoM_createTaskFiles _ _ _ _) (fun _ => ?_)
      refine monoM_bind monoM_commitM (fun _ => ?_)
      exact monoM_bind monoM_readCur (fun s2 => monoM_ret _)

theorem monoM_cancelTask (now tid uid : Nat) : MonoM (cancelTask now tid uid) := by
  unfold cancelTask updateTaskStatus
  refine monoM_bind (monoM_getTaskOwned _ _) (fun t? => ?_)
  cases t? with
  | none => exact monoM_thr _
  | some t =>
    refine monoM_bind (monoM_modCur ?_) (fun _ => ?_)
    · intro s
      refine TMono_updTask s tid _ ?_ ?_
      · intro t2
        cases h : TaskStatus.cancelled == TaskStatus.completed <;> simp [h]
      · intro t2 hc
        have hb : (TaskStatus.cancelled == TaskStatus.completed) = false := rfl
        rw [hb]
        simp only [Bool.false_eq_true, if_false]
        exact .inr rfl
    · refine monoM_bind monoM_commitM (fun _ => ?_)
      refine monoM_bind monoM_readCur (fun s2 => ?_)
      cases findTask s2 tid with
      | none => exact monoM_thr _
      | some t2 => exact monoM_ret _

end Yuntu

namespace Yuntu

theorem TMono_execOp {α : Type} (m : M α) (hm : MonoM m) (s : St) (oss : List String) :
    TMono s (execOp m s oss).2.1 := by
  unfold execOp
  cases hms : m ⟨s, s, oss, false⟩ with
  | mk r σ2 =>
    have h1 : SP ⟨s, s, oss, false⟩ σ2 := by
      have := hm ⟨s, s, oss, false⟩
      rw [hms] at this
      exact this
    cases r with
    | ok a =>
      dsimp only
      exact h1.1
    | error e2 =>
      dsimp only
      rcases h1.2 with h | h
      · exact h
      · rw [h]
        exact TMono_refl s

theorem TMono_runEvent (env : Env) (e : Event) (s : St) (oss : List String) :
    TMono s (runEvent env e s oss).1 := by
  cases e with
  | createTaskEv m u => exact TMono_execOp _ (monoM_createTask m u) s oss
  | checkFilesExistEv tid fs u => exact TMono_execOp _ (monoM_checkFilesExist tid fs u) s oss
  | uploadFileEv fid c u => exact TMono_execOp _ (monoM_uploadFile env fid c u) s oss
  | initMultipartEv req u => exact TMono_execOp _ (monoM_initMultipartUpload env req u) s oss
  | uploadChunkEv fid i d u => exact TMono_execOp _ (monoM_uploadChunk env fid i d u) s oss
  | completeMultipartEv fid et u =>
    exact TMono_execOp _ (monoM_completeMultipartUpload env fid et u) s oss
  | abortMultipartEv fid u r => exact TMono_execOp _ (monoM_abortMultipartUpload fid u r) s oss
  | retryFileEv fid u => exact TMono_execOp _ (monoM_retryFile fid u) s oss
  | markFileCompletedEv tid fid u k url m n =>
    exact TMono_execOp _ (monoM_markFileCompleted env.now tid fid u k url m n) s oss
  | cancelTaskEv tid u => exact TMono_execOp _ (monoM_cancelTask env.now tid u) s oss
  | checkAndCompleteEv tid => exact TMono_execOp _ (monoM_checkAndCompleteTask env.now tid) s oss
  | updateTaskProgressEv tid => exact TMono_execOp _ (monoM_updateTaskProgress tid) s oss

/-- C5.  Completion monotonicity: once an UploadTask has status COMPLETED,
no subsequent event of the upload engine — a repeated single-shot upload of
one of its files, a chunk upload, a multipart init/complete/abort, a
completion notification, a batch dedup check, a retry, a cancel, a task
creation, a completion check or a progress recomputation — ever changes that
task's status to UPLOADING; after any such event the task is still present
and its status is COMPLETED or CANCELLED, never UPLOADING.  Proved for every
oracle, every event argument and every starting state. -/
theorem C5_completion_monotonic (env : Env) (e : Event) (s : St) (oss : List String)
    (tid : Nat) (task : UploadTask)
    (hf : findTask s tid = some task) (hc : task.status = .completed) :
    ∀ t2, findTask (runEvent env e s oss).1 tid = some t2 → t2.status ≠ .uploading := by
  intro t2 h2
  obtain ⟨t3, h3, hc3⟩ := TMono_runEvent env e s oss tid task hf (.inl hc)
  rw [h2] at h3
  cases h3
  rcases hc3 with h | h <;> rw [h] <;> intro hcontra <;> cases hcontra

end Yuntu

namespace Yuntu

/-- Witness for C5: the concrete COMPLETED task survives a repeated
completion notification without ever becoming UPLOADING. -/
theorem C5_completion_monotonic_witness :
    findTask (runEvent envA (.markFileCompletedEv 2 3 10 "k" "u" (some "m") none)
        stDone []).1 2 =
      some { taskDoneT with uploaded_files := 2, uploaded_size := 10 } ∧
    ({ taskDoneT with
        uploaded_files := 2, uploaded_size := 10 } : UploadTask).status ≠
      .uploading :=
  ⟨by decide,
   C5_completion_monotonic envA (.markFileCompletedEv 2 3 10 "k" "u" (some "m") none)
     stDone [] 2 taskDoneT rfl rfl
     { taskDoneT with uploaded_files := 2, uploaded_size := 10 } (by decide)⟩


theorem find_unique_folder (d : Nat) (p : String) (l : List Folder)
    (hu : l.Pairwise (fun a b => a.drive_id = b.drive_id → a.path ≠ b.path))
    (f : Folder) (hf : f ∈ l) (hd : f.drive_id = d) (hp : f.path = p) :
    l.find? (fun g => g.drive_id == d && g.path == p) = some f := by
  induction l with
  | nil => cases hf
  | cons a t ih =>
    rw [List.pairwise_cons] at hu
    cases hpa : (a.drive_id == d && a.path == p) with
    | true =>
      simp only [List.find?_cons, hpa]
      rcases List.mem_cons.mp hf with h | h
      · rw [h]
      · exfalso
        simp only [Bool.and_eq_true, beq_iff_eq] at hpa
        exact (hu.1 f h (hpa.1.trans hd.symm)) (hpa.2.trans hp.symm)
    | false =>
      simp only [List.find?_cons, hpa]
      rcases List.mem_cons.mp hf with h | h
      · exfalso
        rw [← h] at hpa
        simp [hd, hp] at hpa
      · exact ih hu.2 h

theorem no_match_of_findFolder_none (s : St) (d : Nat) (p : String)
    (h : findFolder s d p = none) :
    ∀ g, g ∈ s.folders → g.drive_id = d → g.path ≠ p := by
  intro g hg hd hp
  have := List.find?_eq_none.mp h g hg
  simp only [Bool.and_eq_true, beq_iff_eq] at this
  exact this ⟨hd, hp⟩

theorem splitCharList_ne_nil (l : List Char) : splitCharList l ≠ [] := by
  cases l with
  | nil => simp [splitCharList]
  | cons c rest =>
    unfold splitCharList
    dsimp only
    cases hc : (c == '/') with
    | true => simp
    | false =>
      simp only [Bool.false_eq_true, if_false]
      cases splitCharList rest with
      | nil => simp
      | cons h t => simp

theorem splitSlash_ne_nil (s : String) : splitSlash s ≠ [] := by
  unfold splitSlash
  intro h
  exact splitCharList_ne_nil s.toList (List.map_eq_nil_iff.mp h)

theorem ensureFolderLoop_cons (d u : Nat) (part : String) (rest : List String)
    (i : Nat) (cp : String) (parent : Option Folder) (s : St) :
    ensureFolderLoop d u (part :: rest) i cp parent s =
      (match findFolder s d (cp ++ "/" ++ part) with
      | some f =>
        ensureFolderLoop d u rest (i + 1) (cp ++ "/" ++ part) (some f) s
      | none =>
        ensureFolderLoop d u rest (i + 1) (cp ++ "/" ++ part)
          (some { id := s.next_id, drive_id := d, name := part,
                  path := cp ++ "/" ++ part, level := i,
                  parent_id := parent.map (fun p => p.id), created_by := u })
          { s with
            folders := s.folders ++
              [{ id := s.next_id, drive_id := d, name := part,
                 path := cp ++ "/" ++ part, level := i,
                 parent_id := parent.map (fun p => p.id), created_by := u }],
            next_id := s.next_id + 1 }) := rfl

theorem ensureFolderLoop_spec (d u : Nat) (parts : List String) :
    ∀ (i : Nat) (cp : String) (parent : Option Folder) (s : St),
    folderUnique s →
    (∃ l, (ensureFolderLoop d u parts i cp parent s).2.folders =
        s.folders ++ l) ∧
    folderUnique (ensureFolderLoop d u parts i cp parent s).2 ∧
    (∀ q, q ∈ chainPrefixes cp parts →
      ∃ g, g ∈ (ensureFolderLoop d u parts i cp parent s).2.folders ∧
        g.drive_id = d ∧ g.path = q) ∧
    (parts ≠ [] →
      ∃ f, (ensureFolderLoop d u parts i cp parent s).1 = some f ∧
        f ∈ (ensureFolderLoop d u parts i cp parent s).2.folders ∧
        f.drive_id = d ∧ f.path = chainPath cp parts) := by
  induction parts with
  | nil =>
    intro i cp parent s hu
    refine ⟨⟨[], by simp [ensureFolderLoop]⟩, ?_, ?_, ?_⟩
    · simpa [ensureFolderLoop] using hu
    · intro q hq
      cases hq
    · intro h
      exact absurd rfl h
  | cons part rest ih =>
    intro i cp parent s hu
    rw [ensureFolderLoop_cons]
    cases hfind : findFolder s d (cp ++ "/" ++ part) with
    | some f =>
      dsimp only
      have hmem : f ∈ s.folders := List.mem_of_find?_eq_some hfind
      have hpred := List.find?_some hfind
      simp only [Bool.and_eq_true, beq_iff_eq] at hpred
      obtain ⟨⟨l, hl⟩, hu2, hpre, hlast⟩ :=
        ih (i + 1) (cp ++ "/" ++ part) (some f) s hu
      refine ⟨⟨l, hl⟩, hu2, ?_, ?_⟩
      · intro q hq
        simp only [chainPrefixes] at hq
        rcases List.mem_cons.mp hq with hq | hq
        · exact ⟨f, by rw [hl]; exact List.mem_append_left _ hmem,
            hpred.1, hpred.2.trans hq.symm⟩
        · exact hpre q hq
      · intro _
        cases hrest : rest with
        | nil =>
          subst hrest
          exact ⟨f, by simp [ensureFolderLoop], by
            simp only [ensureFolderLoop]; exact hmem, hpred.1, hpred.2⟩
        | cons r2 t2 =>
          subst hrest
          exact hlast (List.cons_ne_nil r2 t2)
    | none =>
      dsimp only
      set nf : Folder :=
        { id := s.next_id, drive_id := d, name := part,
          path := cp ++ "/" ++ part, level := i,
          parent_id := parent.map (fun p => p.id), created_by := u } with hnf
      set s2 : St :=
        { s with folders := s.folders ++ [nf], next_id := s.next_id + 1 }
        with hs2
      have hu2 : folderUnique s2 := by
        rw [hs2]
        unfold folderUnique
        dsimp only
        rw [List.pairwise_append]
        refine ⟨hu, List.pairwise_singleton _ _, ?_⟩
        intro a ha b hb hdrive
        simp only [List.mem_singleton] at hb
        subst hb
        have hno := no_match_of_findFolder_none s d (cp ++ "/" ++ part)
          hfind a ha
        intro hpath
        exact hno (by rw [hdrive, hnf]) (by rw [hpath, hnf])
      have hnfmem : nf ∈ s2.folders := by
        rw [hs2]
        exact List.mem_append_right _ (List.mem_singleton.mpr rfl)
      obtain ⟨⟨l, hl⟩, hu3, hpre, hlast⟩ :=
        ih (i + 1) (cp ++ "/" ++ part) (some nf) s2 hu2
      refine ⟨⟨[nf] ++ l, by rw [hl, hs2]; simp⟩, hu3, ?_, ?_⟩
      · intro q hq
        simp only [chainPrefixes] at hq
        rcases List.mem_cons.mp hq with hq | hq
        · exact ⟨nf, by rw [hl]; exact List.mem_append_left _ hnfmem,
            rfl, hq.symm⟩
        · exact hpre q hq
      · intro _
        cases hrest : rest with
        | nil =>
          subst hrest
          exact ⟨nf, by simp [ensureFolderLoop], by
            simp only [ensureFolderLoop]; exact hnfmem, rfl, rfl⟩
        | cons r2 t2 =>
          subst hrest
          exact hlast (List.cons_ne_nil r2 t2)

theorem ensureFolderLoop_noop (d u : Nat) (parts : List String) :
    ∀ (i : Nat) (cp : String) (parent : Option Folder) (s : St),
    folderUnique s →
    (∀ q, q ∈ chainPrefixes cp parts →
      ∃ g, g ∈ s.folders ∧ g.drive_id = d ∧ g.path = q) →
    (ensureFolderLoop d u parts i cp parent s).2 = s ∧
    (parts = [] → (ensureFolderLoop d u parts i cp parent s).1 = parent) ∧
    (parts ≠ [] →
      ∃ f, (ensureFolderLoop d u parts i cp parent s).1 = some f ∧
        f ∈ s.folders ∧ f.drive_id = d ∧ f.path = chainPath cp parts) := by
  induction parts with
  | nil =>
    intro i cp parent s hu hpre
    exact ⟨rfl, fun _ => rfl, fun h => absurd rfl h⟩
  | cons part rest ih =>
    intro i cp parent s hu hpre
    obtain ⟨g, hgmem, hgd, hgp⟩ := hpre (cp ++ "/" ++ part)
      (by simp [chainPrefixes])
    have hfind : findFolder s d (cp ++ "/" ++ part) = some g :=
      find_unique_folder d (cp ++ "/" ++ part) s.folders hu g hgmem hgd hgp
    rw [ensureFolderLoop_cons, hfind]
    dsimp only
    obtain ⟨hst, _, hlast⟩ := ih (i + 1) (cp ++ "/" ++ part) (some g) s hu
      (fun q hq => hpre q (by simp [chainPrefixes]; exact Or.inr hq))
    refine ⟨hst, fun h => absurd h (by simp), ?_⟩
    intro _
    cases hrest : rest with
    | nil =>
      subst hrest
      exact ⟨g, rfl, hgmem, hgd, hgp⟩
    | cons r2 t2 =>
      subst hrest
      exact hlast (List.cons_ne_nil r2 t2)

/-- C9: Folder materialization is idempotent and root-free: ensure_folder_exists
on a root path returns no folder and leaves the state unchanged; on a non-root
path it returns the deepest folder of the materialized chain (an existing row of
the requested drive); per-drive path uniqueness of the Folder table is
preserved; re-materializing the same (drive, path) creates no new Folder rows,
and for a canonical path returns exactly the same folder; concretely, "/a/b" on
an empty drive creates "/a" (level 0, no parent) and "/a/b" (level 1, parent =
the "/a" row) and returns the latter. -/
theorem C9_folder_materializer_spec (d u : Nat) (p : String) (s : St)
    (hu : folderUnique s) :
    ensureFolderExists d "" u s = (none, s) ∧
    ensureFolderExists d "/" u s = (none, s) ∧
    folderUnique (ensureFolderExists d p u s).2 ∧
    (ensureFolderExists d p u (ensureFolderExists d p u s).2).2 =
      (ensureFolderExists d p u s).2 ∧
    (p ≠ "" → p ≠ "/" →
      (∃ f, (ensureFolderExists d p u s).1 = some f ∧
        f ∈ (ensureFolderExists d p u s).2.folders ∧ f.drive_id = d ∧
        (f.path = p ∨ f.path = chainPath "" (splitSlash (stripSlash p)))) ∧
      (∃ g, (ensureFolderExists d p u (ensureFolderExists d p u s).2).1 =
          some g ∧
        g ∈ (ensureFolderExists d p u s).2.folders ∧ g.drive_id = d) ∧
      (p = chainPath "" (splitSlash (stripSlash p)) →
        ensureFolderExists d p u (ensureFolderExists d p u s).2 =
          ((ensureFolderExists d p u s).1, (ensureFolderExists d p u s).2))) ∧
    ensureFolderExists 1 "/a/b" 7 { next_id := 100 } =
      (some { id := 101, name := "b", path := "/a/b", level := 1,
              drive_id := 1, parent_id := some 100, created_by := 7 },
       { folders :=
           [{ id := 100, name := "a", path := "/a", level := 0, drive_id := 1,
              parent_id := none, created_by := 7 },
            { id := 101, name := "b", path := "/a/b", level := 1, drive_id := 1,
              parent_id := some 100, created_by := 7 }],
         next_id := 102 }) := by
  have main : folderUnique (ensureFolderExists d p u s).2 ∧
      (ensureFolderExists d p u (ensureFolderExists d p u s).2).2 =
        (ensureFolderExists d p u s).2 ∧
      (p ≠ "" → p ≠ "/" →
        (∃ f, (ensureFolderExists d p u s).1 = some f ∧
          f ∈ (ensureFolderExists d p u s).2.folders ∧ f.drive_id = d ∧
          (f.path = p ∨ f.path = chainPath "" (splitSlash (stripSlash p)))) ∧
        (∃ g, (ensureFolderExists d p u (ensureFolderExists d p u s).2).1 =
            some g ∧
          g ∈ (ensureFolderExists d p u s).2.folders ∧ g.drive_id = d) ∧
        (p = chainPath "" (splitSlash (stripSlash p)) →
          ensureFolderExists d p u (ensureFolderExists d p u s).2 =
            ((ensureFolderExists d p u s).1,
             (ensureFolderExists d p u s).2))) := by
    cases hroot : (p == "" || p == "/") with
    | true =>
      have hp0 : p = "" ∨ p = "/" := by
        have h0 := hroot
        simp only [Bool.or_eq_true, beq_iff_eq] at h0
        exact h0
      have hE : ensureFolderExists d p u s = (none, s) := by
        rcases hp0 with h | h <;> subst h <;> rfl
      refine ⟨?_, ?_, ?_⟩
      · rw [hE]
        exact hu
      · rw [hE]
        exact congrArg Prod.snd hE
      · intro hne1 hne2
        rcases hp0 with h | h
        · exact absurd h hne1
        · exact absurd h hne2
    | false =>
      cases hfind : findFolder s d p with
      | some f =>
        have hE : ensureFolderExists d p u s = (some f, s) := by
          simp only [ensureFolderExists, hroot, Bool.false_eq_true,
            if_false, hfind]
        have hmem : f ∈ s.folders := List.mem_of_find?_eq_some hfind
        have hpred := List.find?_some hfind
        simp only [Bool.and_eq_true, beq_iff_eq] at hpred
        refine ⟨?_, ?_, ?_⟩
        · rw [hE]
          exact hu
        · rw [hE]
          exact congrArg Prod.snd hE
        · intro hne1 hne2
          refine ⟨⟨f, by rw [hE], by rw [hE]; exact hmem, hpred.1,
            Or.inl hpred.2⟩, ⟨f, by rw [hE]; exact congrArg Prod.fst hE,
            by rw [hE]; exact hmem, hpred.1⟩, ?_⟩
          intro _
          rw [hE]
          exact hE
      | none =>
        have hE : ensureFolderExists d p u s =
            ensureFolderLoop d u (splitSlash (stripSlash p)) 0 "" none s := by
          simp only [ensureFolderExists, hroot, Bool.false_eq_true,
            if_false, hfind]
        obtain ⟨⟨l, hl⟩, hu1, hpre, hlast⟩ :=
          ensureFolderLoop_spec d u (splitSlash (stripSlash p)) 0 "" none s hu
        obtain ⟨f, hf1, hfmem, hfd, hfp⟩ :=
          hlast (splitSlash_ne_nil (stripSlash p))
        have hpre1 : ∀ q, q ∈ chainPrefixes "" (splitSlash (stripSlash p)) →
            ∃ g, g ∈ (ensureFolderLoop d u (splitSlash (stripSlash p))
              0 "" none s).2.folders ∧ g.drive_id = d ∧ g.path = q := hpre
        cases hfind2 : findFolder
            (ensureFolderLoop d u (splitSlash (stripSlash p)) 0 "" none s).2
            d p with
        | some g =>
          have hE2 : ensureFolderExists d p u
              (ensureFolderLoop d u (splitSlash (stripSlash p))
                0 "" none s).2 =
              (some g,
               (ensureFolderLoop d u (splitSlash (stripSlash p))
                 0 "" none s).2) := by
            simp only [ensureFolderExists, hroot, Bool.false_eq_true,
              if_false, hfind2]
          have hgmem := List.mem_of_find?_eq_some hfind2
          have hgpred := List.find?_some hfind2
          simp only [Bool.and_eq_true, beq_iff_eq] at hgpred
          refine ⟨by rw [hE]; exact hu1, by rw [hE, hE2], ?_⟩
          intro hne1 hne2
          refine ⟨⟨f, by rw [hE]; exact hf1, by rw [hE]; exact hfmem, hfd,
            Or.inr hfp⟩,
            ⟨g, by rw [hE, hE2], by rw [hE]; exact hgmem, hgpred.1⟩, ?_⟩
          intro hp
          have hfindf : findFolder
              (ensureFolderLoop d u (splitSlash (stripSlash p))
                0 "" none s).2 d p = some f :=
            find_unique_folder d p _ hu1 f hfmem hfd (hfp.trans hp.symm)
          have hgf : g = f := by
            have := hfind2.symm.trans hfindf
            exact Option.some.inj this
          rw [hE, hE2, hgf, hf1]
        | none =>
          have hE2 : ensureFolderExists d p u
              (ensureFolderLoop d u (splitSlash (stripSlash p))
                0 "" none s).2 =
              ensureFolderLoop d u (splitSlash (stripSlash p)) 0 "" none
                (ensureFolderLoop d u (splitSlash (stripSlash p))
                  0 "" none s).2 := by
            simp only [ensureFolderExists, hroot, Bool.false_eq_true,
              if_false, hfind2]
          obtain ⟨hst2, _, hlast2⟩ :=
            ensureFolderLoop_noop d u (splitSlash (stripSlash p)) 0 "" none
              (ensureFolderLoop d u (splitSlash (stripSlash p))
                0 "" none s).2 hu1 hpre1
          obtain ⟨f2, hf21, hf2mem, hf2d, _⟩ :=
            hlast2 (splitSlash_ne_nil (stripSlash p))
          refine ⟨by rw [hE]; exact hu1, by rw [hE, hE2]; exact hst2, ?_⟩
          intro hne1 hne2
          refine ⟨⟨f, by rw [hE]; exact hf1, by rw [hE]; exact hfmem, hfd,
            Or.inr hfp⟩,
            ⟨f2, by rw [hE, hE2]; exact hf21, by rw [hE]; exact hf2mem,
              hf2d⟩, ?_⟩
          intro hp
          have hfindf : findFolder
              (ensureFolderLoop d u (splitSlash (stripSlash p))
                0 "" none s).2 d p = some f :=
            find_unique_folder d p _ hu1 f hfmem hfd (hfp.trans hp.symm)
          exact absurd (hfind2.symm.trans hfindf) (by simp)
  exact ⟨rfl, rfl, main.1, main.2.1, main.2.2, by decide⟩


/-- Witness for C9 at drive 2, user 7, path "/x", an empty store. -/
theorem C9_folder_materializer_spec_witness :
    folderUnique { next_id := 5 } ∧
    (ensureFolderExists 2 "" 7 { next_id := 5 } = (none, { next_id := 5 }) ∧
     ensureFolderExists 2 "/" 7 { next_id := 5 } = (none, { next_id := 5 }) ∧
     folderUnique (ensureFolderExists 2 "/x" 7 { next_id := 5 }).2 ∧
     (ensureFolderExists 2 "/x" 7
        (ensureFolderExists 2 "/x" 7 { next_id := 5 }).2).2 =
       (ensureFolderExists 2 "/x" 7 { next_id := 5 }).2 ∧
     ("/x" ≠ "" → "/x" ≠ "/" →
       (∃ f, (ensureFolderExists 2 "/x" 7 { next_id := 5 }).1 = some f ∧
         f ∈ (ensureFolderExists 2 "/x" 7 { next_id := 5 }).2.folders ∧
         f.drive_id = 2 ∧
         (f.path = "/x" ∨
           f.path = chainPath "" (splitSlash (stripSlash "/x")))) ∧
       (∃ g, (ensureFolderExists 2 "/x" 7
           (ensureFolderExists 2 "/x" 7 { next_id := 5 }).2).1 = some g ∧
         g ∈ (ensureFolderExists 2 "/x" 7 { next_id := 5 }).2.folders ∧
         g.drive_id = 2) ∧
       ("/x" = chainPath "" (splitSlash (stripSlash "/x")) →
         ensureFolderExists 2 "/x" 7
             (ensureFolderExists 2 "/x" 7 { next_id := 5 }).2 =
           ((ensureFolderExists 2 "/x" 7 { next_id := 5 }).1,
            (ensureFolderExists 2 "/x" 7 { next_id := 5 }).2))) ∧
     ensureFolderExists 1 "/a/b" 7 { next_id := 100 } =
       (some { id := 101, name := "b", path := "/a/b", level := 1,
               drive_id := 1, parent_id := some 100, created_by := 7 },
        { folders :=
            [{ id := 100, name := "a", path := "/a", level := 0,
               drive_id := 1, parent_id := none, created_by := 7 },
             { id := 101, name := "b", path := "/a/b", level := 1,
               drive_id := 1, parent_id := some 100, created_by := 7 }],
          next_id := 102 })) :=
  ⟨List.Pairwise.nil,
   C9_folder_materializer_spec 2 7 "/x" { next_id := 5 } List.Pairwise.nil⟩

end Yuntu
